import Mathlib

/-!
Verification development for the VICE joystick input-mapping engine
(src/vice/src/joyport/joystick.c).

The C code is shallowly embedded: the mutable globals of joystick.c
(latch_joystick_value, gtkjoy_pins, joystick_hook state, ...) become fields
of an explicit state record, machine integers become Nat/Int with explicit
16-bit masking where the C code relies on uint16_t truncation, and the
parser/serializer of the .vjm mapping-file format works on a tokenised view
of the file (one entry per text line; integer columns and the single
bareword column of a line are kept as values, which is faithful because the
file format is whitespace-separated decimal integers plus one bareword).
-/

namespace Vice

/-! ## Constants (joystick.c lines 91-107, 119-133)

JOYPAD_* pin bit values are given directly in joystick.c.  JOYPORT_MAX_PORTS
is 11 (the initialisers of the per-port arrays in joystick.c have 11
entries).  JOYPORT_MAX_PINS comes from the missing header joyport.h; it is
modelled from the spec: pin state is a 16-bit bitmask, so there are 16 pins.
-/

def JOYPAD_FIRE : Nat := 0x10
def JOYPAD_E : Nat := 0x08
def JOYPAD_W : Nat := 0x04
def JOYPAD_S : Nat := 0x02
def JOYPAD_N : Nat := 0x01

def JOYPORT_MAX_PORTS : Nat := 11

/-- Modelled from the spec: the pin state is a 16-bit bitmask, so the
per-pin press counter array has 16 entries per port (JOYPORT_MAX_PINS in
the missing header joyport.h). -/
def JOYPORT_MAX_PINS : Nat := 16

/-- The opposite-direction lookup table of joystick.c (lines 140-158),
indexed by the low four (E,W,S,N) bits of the written value. -/
def joystick_opposite_direction (idx : Nat) : Nat :=
  match idx with
  | 0  => 0
  | 1  => JOYPAD_S
  | 2  => JOYPAD_N
  | 3  => JOYPAD_S ||| JOYPAD_N
  | 4  => JOYPAD_E
  | 5  => JOYPAD_E ||| JOYPAD_S
  | 6  => JOYPAD_E ||| JOYPAD_N
  | 7  => JOYPAD_E ||| JOYPAD_S ||| JOYPAD_N
  | 8  => JOYPAD_W
  | 9  => JOYPAD_W ||| JOYPAD_S
  | 10 => JOYPAD_W ||| JOYPAD_N
  | 11 => JOYPAD_W ||| JOYPAD_S ||| JOYPAD_N
  | 12 => JOYPAD_E ||| JOYPAD_W
  | 13 => JOYPAD_E ||| JOYPAD_W ||| JOYPAD_S
  | 14 => JOYPAD_E ||| JOYPAD_W ||| JOYPAD_N
  | _  => JOYPAD_E ||| JOYPAD_W ||| JOYPAD_S ||| JOYPAD_N

/-! ## Function-array updates -/

/-- Point update of a one-dimensional array modelled as a function. -/
def updFn {α : Type} (f : Nat → α) (i : Nat) (v : α) : Nat → α :=
  fun j => if j = i then v else f j

/-- Point update of a two-dimensional array modelled as a function. -/
def updFn2 (f : Nat → Nat → Nat) (i j : Nat) (v : Nat) : Nat → Nat → Nat :=
  fun a b => if a = i ∧ b = j then v else f a b

/-! ## Latched joystick state and the pin-write operations

The mutable globals touched by joystick_set_value_absolute/or/and and by
the gtkjoy press counters, gathered into one state record.
`event_playback` models the external event_playback_active() flag and
`latch_scheduled` counts how many times joystick_process_latch ran (in the
C code that call either arms the latch alarm or records a network event;
either way one pending latch update is scheduled/recorded). -/

structure JoyState where
  event_playback : Bool
  joystick_opposite_enable : Bool
  latch_values : Nat → Nat
  last_used_joyport : Nat
  latch_scheduled : Nat
  joystick_hook : Nat → Bool
  joystick_hook_mask : Nat → Nat
  joystick_hook_state : Nat → Nat
  gtkjoy_pins : Nat → Nat → Nat

/-- joystick_process_latch (joystick.c lines 299-309): schedule one latch
update (alarm_set) or record it as a network event. -/
def joystick_process_latch (s : JoyState) : JoyState :=
  { s with latch_scheduled := s.latch_scheduled + 1 }

/-- joystick_handle_hooks (joystick.c lines 284-297). -/
def joystick_handle_hooks (joyport : Nat) (s : JoyState) : JoyState :=
  if s.joystick_hook joyport then
    let masked_old := s.joystick_hook_state joyport &&& s.joystick_hook_mask joyport
    let masked_new := s.latch_values joyport &&& s.joystick_hook_mask joyport
    if masked_old ≠ masked_new then
      { s with joystick_hook_state := updFn s.joystick_hook_state joyport masked_new }
    else s
  else s

/-- joystick_set_value_absolute (joystick.c lines 316-328). -/
def joystick_set_value_absolute (joyport : Nat) (value : Nat) (s : JoyState) : JoyState :=
  if s.event_playback then s
  else if s.latch_values joyport ≠ value then
    let s := { s with latch_values := updFn s.latch_values joyport value,
                      last_used_joyport := joyport }
    joystick_handle_hooks joyport (joystick_process_latch s)
  else s

/-- joystick_set_value_or (joystick.c lines 331-346): OR the bits in, then,
unless opposite directions are allowed, clear the geometric opposites of
the low four direction bits of the written value ((uint16_t)~mask is the
16-bit complement). -/
def joystick_set_value_or (joyport : Nat) (value : Nat) (s : JoyState) : JoyState :=
  if s.event_playback then s
  else
    let v1 := updFn s.latch_values joyport (s.latch_values joyport ||| value)
    let s := { s with latch_values := v1 }
    let s := if ¬s.joystick_opposite_enable then
               let v2 := updFn s.latch_values joyport
                 (s.latch_values joyport &&&
                  (65535 ^^^ joystick_opposite_direction (value &&& 0xf)))
               { s with latch_values := v2 }
             else s
    let s := { s with last_used_joyport := joyport }
    joystick_handle_hooks joyport (joystick_process_latch s)

/-- joystick_set_value_and (joystick.c lines 349-359). -/
def joystick_set_value_and (joyport : Nat) (value : Nat) (s : JoyState) : JoyState :=
  if s.event_playback then s
  else
    let v1 := updFn s.latch_values joyport (s.latch_values joyport &&& value)
    let s := { s with latch_values := v1, last_used_joyport := joyport }
    joystick_handle_hooks joyport (joystick_process_latch s)

/-- gtkjoy_set_value_press (joystick.c lines 2965-2975): increment the
press counter of every pin bit set in the value, then OR the value in. -/
def gtkjoy_set_value_press (joyport : Nat) (value : Nat) (s : JoyState) : JoyState :=
  let s := (List.range JOYPORT_MAX_PINS).foldl
    (fun st i =>
      if value &&& (1 <<< i) ≠ 0 then
        { st with gtkjoy_pins := updFn2 st.gtkjoy_pins joyport i (st.gtkjoy_pins joyport i + 1) }
      else st) s
  joystick_set_value_or joyport value s

/-- gtkjoy_set_value_release (joystick.c lines 2979-2993): decrement the
press counter of every pin bit set in the value (not below 0), and when the
counter is 0 release the pins with joystick_set_value_and
(joystick_set_value_and(joyport, ~value), a 16-bit complement). -/
def gtkjoy_set_value_release (joyport : Nat) (value : Nat) (s : JoyState) : JoyState :=
  (List.range JOYPORT_MAX_PINS).foldl
    (fun st i =>
      if value &&& (1 <<< i) ≠ 0 then
        let st := if st.gtkjoy_pins joyport i > 0 then
                    let dec := updFn2 st.gtkjoy_pins joyport i (st.gtkjoy_pins joyport i - 1)
                    { st with gtkjoy_pins := dec }
                  else st
        if st.gtkjoy_pins joyport i = 0 then
          joystick_set_value_and joyport (65535 ^^^ value) st
        else st
      else st) s

/-! ## Autofire and the read path (joystick.c lines 381-420) -/

/-- get_joystick_autofire (joystick.c lines 381-391). -/
def get_joystick_autofire (autofire_speed cycles_per_second maincpu_clk : Nat) : Nat :=
  let second_cycles := maincpu_clk % cycles_per_second
  let cycles_per_flip := cycles_per_second / (autofire_speed * 2)
  let flip_part := second_cycles / cycles_per_flip
  if flip_part &&& 1 ≠ 0 then 0 else 1

/-- get_joystick_value (joystick.c lines 393-420).  The fire bit is
JOYPAD_FIRE = 0x10 (bit 4); JOYPORT_BIT_BOOL(value, JOYPORT_FIRE_BIT)
extracts it.  `autofire_mode_permanent` is the comparison
joystick_autofire_mode[index] == JOYSTICK_AUTOFIRE_MODE_PERMANENT. -/
def get_joystick_value (joystick_value : Nat) (autofire_enable : Bool)
    (autofire_mode_permanent : Bool)
    (autofire_speed cycles_per_second maincpu_clk : Nat) : Nat :=
  let retval := joystick_value &&& 0xffef
  let fire_button := (joystick_value >>> 4) &&& 1
  let fire_button :=
    if autofire_enable then
      if autofire_mode_permanent then
        if fire_button = 0 then
          get_joystick_autofire autofire_speed cycles_per_second maincpu_clk
        else fire_button
      else
        if fire_button ≠ 0 then
          get_joystick_autofire autofire_speed cycles_per_second maincpu_clk
        else fire_button
    else fire_button
  retval ||| (if fire_button ≠ 0 then JOYPAD_FIRE else 0)

/-! ## Snapshot modules (joystick.c lines 2806-2853) -/

structure snapshot_module_t where
  name : String
  major : Nat
  minor : Nat
  words : List Nat
deriving DecidableEq

/-- snapshot_module_open: look a module up by name. -/
def snapshot_module_open (s : List snapshot_module_t) (name : String) :
    Option snapshot_module_t :=
  s.find? (fun m => m.name = name)

/-- joystick_snapshot_write_module (joystick.c lines 2809-2827): create a
module named JOYSTICK&lt;port&gt; with version 1.2 holding the one word
joystick_value[port]. -/
def joystick_snapshot_write_module (s : List snapshot_module_t)
    (joystick_value : Nat → Nat) (port : Nat) : List snapshot_module_t :=
  s ++ [{ name := "JOYSTICK" ++ toString port, major := 1, minor := 2,
          words := [joystick_value port] }]

/-- joystick_snapshot_read_module (joystick.c lines 2829-2853): open the
module named JOYSTICK&lt;port&gt;, require version 1.2, and read the one word
into joystick_value[port + 1] (SMR_W(m, &joystick_value[port + 1])). -/
def joystick_snapshot_read_module (s : List snapshot_module_t)
    (joystick_value : Nat → Nat) (port : Nat) : Option (Nat → Nat) :=
  match snapshot_module_open s ("JOYSTICK" ++ toString port) with
  | none => none
  | some m =>
    if m.major = 1 ∧ m.minor = 2 then
      match m.words.head? with
      | some w => some (updFn joystick_value (port + 1) w)
      | none => none
    else none

/-! ## Mapping model (joystick_mapping_t and friends)

joystick_mapping_t in the source is an action enum plus a payload union;
here it is the corresponding sum type.  The action numbers 0..6 are
documented in the mapping-file header that joystick.c itself writes
(lines 1329-1337): 0 none, 1 joystick pin, 2 keyboard row/col, 3 map,
4 UI activate, 5 UI function, 6 pot axis. -/

inductive joystick_mapping_t where
  | none
  | joystick (joy_pin : Nat)
  | keyboard (row column flags : Int)
  | map
  | ui_activate
  | ui_function (ui_action : Int)
  | pot_axis
deriving DecidableEq, Inhabited

/-- The action enum value (JOY_ACTION_*) carried by a mapping. -/
def joystick_mapping_t.action : joystick_mapping_t → Int
  | .none => 0
  | .joystick _ => 1
  | .keyboard _ _ _ => 2
  | .map => 3
  | .ui_activate => 4
  | .ui_function _ => 5
  | .pot_axis => 6

/-- joystick_action_t, the parsed action tag. -/
inductive joystick_action_t where
  | none
  | joystick
  | keyboard
  | map
  | ui_activate
  | ui_function
  | pot_axis
deriving DecidableEq, Inhabited

/-- The cast (joystick_action_t)args[3] together with the range check
JOY_ACTION_NONE <= action <= JOY_ACTION_MAX done by joy_arch_parse_entry. -/
def joystick_action_decode (n : Int) : Option joystick_action_t :=
  match n with
  | 0 => some .none
  | 1 => some .joystick
  | 2 => some .keyboard
  | 3 => some .map
  | 4 => some .ui_activate
  | 5 => some .ui_function
  | 6 => some .pot_axis
  | _ => Option.none

/-- The axis mapping record: pot target plus the positive and negative
direction mappings (axis->mapping in the source). -/
structure joystick_axis_mapping_t where
  pot : Int
  positive : joystick_mapping_t
  negative : joystick_mapping_t
deriving DecidableEq, Inhabited

/-- The hat mapping record (hat->mapping): four direction mappings. -/
structure joystick_hat_map_t where
  up : joystick_mapping_t
  down : joystick_mapping_t
  left : joystick_mapping_t
  right : joystick_mapping_t
deriving DecidableEq, Inhabited

/-- joystick_axis_value_t: the discretized direction of an axis. -/
inductive joystick_axis_value where
  | negative
  | middle
  | positive
deriving DecidableEq, Inhabited

/-- joystick_axis_t: the fields of the source struct that the embedded
functions use.  `joyport` stands for axis->device->joyport. -/
structure joystick_axis_t where
  code : Nat
  index : Int
  digital : Bool
  invert : Bool
  minimum : Int
  maximum : Int
  threshold_negative : Int
  threshold_positive : Int
  prev : joystick_axis_value
  mapping : joystick_axis_mapping_t
  joyport : Int
deriving DecidableEq, Inhabited

/-- joystick_button_t; `prev` is the previous raw int32 value and
`joyport` stands for button->device->joyport. -/
structure joystick_button_t where
  code : Nat
  index : Int
  prev : Int
  mapping : joystick_mapping_t
  joyport : Int
deriving DecidableEq, Inhabited

/-- joystick_hat_t; `prev` is the previous raw direction bitmask. -/
structure joystick_hat_t where
  code : Nat
  index : Int
  prev : Int
  mapping : joystick_hat_map_t
  joyport : Int
deriving DecidableEq, Inhabited

/-- joystick_device_t: name, ids and the owned input collections
(num_axes etc. are the list lengths). -/
structure joystick_device_t where
  name : String
  vendor : Nat
  product : Nat
  axes : List joystick_axis_t
  buttons : List joystick_button_t
  hats : List joystick_hat_t
  disable_sort : Bool
  joyport : Int
deriving DecidableEq, Inhabited

/-! ## Event handlers (joystick.c lines 3047-3194)

The handlers are embedded as pure functions returning the new `prev`
state of the input together with the list of joy_perform_event calls
(mapping, joyport, value) they make, in order. -/

/-- One joy_perform_event invocation: the mapping, the joyport and the
press value passed to it. -/
abbrev Dispatch : Type := joystick_mapping_t × Int × Int

/-- Truncation to a signed 32-bit int, used where the C code stores into
an int32_t. -/
def wrap32 (n : Int) : Int := (n + 2 ^ 31) % 2 ^ 32 - 2 ^ 31

/-- Conversion to uint32 (value modulo 2^32), as a Nat. -/
def u32 (n : Int) : Nat := (n % 2 ^ 32).toNat

/-- The direction-discretisation half of joy_axis_event (joystick.c lines
3049-3091): digital axes take the sign of the (optionally inverted) raw
value; analog axes first optionally reflect the value around the range
centre maximum - (range / 2) and then compare against the calibration
thresholds. -/
def joy_axis_direction (axis : joystick_axis_t) (value : Int) : joystick_axis_value :=
  if axis.digital then
    let value := if axis.invert then wrap32 (-value) else value
    if value < 0 then .negative
    else if value > 0 then .positive
    else .middle
  else
    let value :=
      if axis.invert then
        let range := u32 (axis.maximum - axis.minimum)
        let range := if range < 2 ^ 32 - 1 then range + 1 else range
        let center := wrap32 (axis.maximum - (range / 2 : Nat))
        wrap32 (center - value)
      else value
    if value ≤ axis.threshold_negative then .negative
    else if value ≥ axis.threshold_positive then .positive
    else .middle

/-- joy_axis_event (joystick.c lines 3047-3117): no-op when the direction
is unchanged; otherwise release the previous direction mapping, press the
new one, and store the new direction as prev. -/
def joy_axis_event (axis : joystick_axis_t) (value : Int) :
    joystick_axis_value × List Dispatch :=
  let direction := joy_axis_direction axis value
  if direction = axis.prev then (axis.prev, [])
  else
    let rel : List Dispatch :=
      (if axis.prev = .positive then [(axis.mapping.positive, axis.joyport, 0)] else []) ++
      (if axis.prev = .negative then [(axis.mapping.negative, axis.joyport, 0)] else [])
    let prs : List Dispatch :=
      (if direction = .positive then [(axis.mapping.positive, axis.joyport, 1)] else []) ++
      (if direction = .negative then [(axis.mapping.negative, axis.joyport, 1)] else [])
    (direction, rel ++ prs)

/-- joy_button_event (joystick.c lines 3125-3147): the raw value is
compared with the stored previous raw value; on a difference the single
mapping is dispatched with the boolean pressed value and the raw value is
stored as prev. -/
def joy_button_event (button : joystick_button_t) (value : Int) :
    Int × List Dispatch :=
  let pressed : Int := if value ≠ 0 then 1 else 0
  if value ≠ button.prev then (value, [(button.mapping, button.joyport, pressed)])
  else (button.prev, [])

/-- The C test (z & d) != 0 for a single-bit constant d = 2^k on a signed
integer, in two's complement: bit k of z is set iff d <= z mod 2d (the
Int emod is non-negative, so this is correct for negative z as well). -/
def int_bit_set (z : Int) (d : Nat) : Bool :=
  (d : Int) ≤ z % (2 * (d : Int))

/-- joy_hat_event (joystick.c lines 3155-3194).  The direction bits are
JOYSTICK_DIRECTION_UP/DOWN/LEFT/RIGHT = 1/2/4/8 (the pin values 1/2/4/8 =
u/d/l/r documented in the mapping-file header written by joystick.c). -/
def joy_hat_event (hat : joystick_hat_t) (value : Int) :
    Int × List Dispatch :=
  if value = hat.prev then (hat.prev, [])
  else
    let rel : List Dispatch :=
      (if int_bit_set hat.prev 1 && !int_bit_set value 1 then [(hat.mapping.up, hat.joyport, 0)] else []) ++
      (if int_bit_set hat.prev 2 && !int_bit_set value 2 then [(hat.mapping.down, hat.joyport, 0)] else []) ++
      (if int_bit_set hat.prev 4 && !int_bit_set value 4 then [(hat.mapping.left, hat.joyport, 0)] else []) ++
      (if int_bit_set hat.prev 8 && !int_bit_set value 8 then [(hat.mapping.right, hat.joyport, 0)] else [])
    let prs : List Dispatch :=
      (if !int_bit_set hat.prev 1 && int_bit_set value 1 then [(hat.mapping.up, hat.joyport, 1)] else []) ++
      (if !int_bit_set hat.prev 2 && int_bit_set value 2 then [(hat.mapping.down, hat.joyport, 1)] else []) ++
      (if !int_bit_set hat.prev 4 && int_bit_set value 4 then [(hat.mapping.left, hat.joyport, 1)] else []) ++
      (if !int_bit_set hat.prev 8 && int_bit_set value 8 then [(hat.mapping.right, hat.joyport, 1)] else [])
    (value, rel ++ prs)

/-! ## List helpers for the registry embedding -/

/-- In-place update of one list element, the embedding of writing through
joydev->axes[i] and friends. -/
def updateAt {α : Type} (l : List α) (i : Nat) (f : α → α) : List α :=
  match l, i with
  | [], _ => []
  | x :: xs, 0 => f x :: xs
  | x :: xs, Nat.succ j => x :: updateAt xs j f

/-! ## The !CLEAR keyword (joystick.c lines 1452-1484) -/

/-- The effect of joy_arch_keyword_clear on one axis: positive and
negative mapping actions become JOY_ACTION_NONE; axis->mapping.pot is not
touched. -/
def clear_axis (a : joystick_axis_t) : joystick_axis_t :=
  { a with mapping := { a.mapping with positive := .none, negative := .none } }

/-- The effect of joy_arch_keyword_clear on one button. -/
def clear_button (b : joystick_button_t) : joystick_button_t :=
  { b with mapping := .none }

/-- The effect of joy_arch_keyword_clear on one hat. -/
def clear_hat (h : joystick_hat_t) : joystick_hat_t :=
  { h with mapping := { up := .none, down := .none, left := .none, right := .none } }

/-- The effect of joy_arch_keyword_clear on one device. -/
def clear_device (joydev : joystick_device_t) : joystick_device_t :=
  { joydev with
    axes := joydev.axes.map clear_axis,
    buttons := joydev.buttons.map clear_button,
    hats := joydev.hats.map clear_hat }

/-- joy_arch_keyword_clear: per registered device, set the action of every
axis positive/negative mapping, every button mapping and every hat
direction mapping to JOY_ACTION_NONE. -/
def joy_arch_keyword_clear (devices : List joystick_device_t) : List joystick_device_t :=
  devices.map clear_device

/-- joy_arch_parse_keyword: the first token after the leading bang;
only CLEAR is recognised. -/
def joy_arch_parse_keyword (key : String) (devices : List joystick_device_t) :
    List joystick_device_t :=
  if key = "CLEAR" then joy_arch_keyword_clear devices else devices

/-! ## The .vjm mapping-file text format (joystick.c lines 1352-1449 and
1498-2031), tokenised

A data line of the file is whitespace-separated decimal integer columns,
followed (only for the UI-function action) by one bareword.  A line is
kept as the list of its leading integer columns plus the optional bareword
that follows them; material after the consumed columns is ignored by the
parser exactly as in the source.  Comment lines, blank lines and lines
emptied by the in-place # truncation of joy_arch_mapping_load are
`comment` entries; a keyword line carries the first strtok token after
the bang. -/

structure VjmLine where
  ints : List Int
  word : Option String
deriving DecidableEq, Inhabited

inductive VjmEntry where
  | comment
  | keyword (key : String)
  | line (l : VjmLine)
deriving DecidableEq, Inhabited

/-- parser_state_t (joystick.c lines 1498-1520): the mandatory columns
plus the action-specific argument fields of the union. -/
structure parser_state_t where
  joy_index : Int
  input_type : Int
  input_index : Int
  action : joystick_action_t
  pin : Nat
  pot : Int
  ui_action_id : Int
  key_row : Int
  key_col : Int
  key_flags : Int
deriving DecidableEq, Inhabited

/-- parser_set_mapping (joystick.c lines 1599-1630): build the mapping
value from the parsed action and its arguments.  For JOY_ACTION_POT_AXIS
only the action is set (the axis code handles the payload). -/
def parser_set_mapping (state : parser_state_t) : joystick_mapping_t :=
  match state.action with
  | .none => .none
  | .map => .map
  | .ui_activate => .ui_activate
  | .joystick => .joystick state.pin
  | .keyboard => .keyboard state.key_row state.key_col state.key_flags
  | .ui_function => .ui_function state.ui_action_id
  | .pot_axis => .pot_axis

/-- parser_set_axis (joystick.c lines 1639-1682).  For JOY_ACTION_POT_AXIS
the input index is the axis index and the pot number is stored; otherwise
index = input_index / 2 and direction = input_index % 2 select the
positive (0) or negative (1) mapping of the axis. -/
def parser_set_axis (state : parser_state_t) (devices : List joystick_device_t) :
    List joystick_device_t × Bool × List String :=
  let d := state.joy_index.toNat
  let joydev := devices.getD d default
  if state.action = .pot_axis then
    if state.input_index < (joydev.axes.length : Int) then
      let setPot := fun (a : joystick_axis_t) =>
        { a with mapping := { a.mapping with pot := state.pot } }
      (updateAt devices d
         (fun jd => { jd with axes := updateAt jd.axes state.input_index.toNat setPot }),
       true, [])
    else
      (devices, false,
       ["input index " ++ toString state.input_index ++
        " too large for input type axis (pot), joystick " ++
        toString state.joy_index ++ "."])
  else
    let index := state.input_index / 2
    let direction := state.input_index % 2
    if index < (joydev.axes.length : Int) then
      let m := parser_set_mapping state
      if direction = 0 then
        let setPos := fun (a : joystick_axis_t) =>
          { a with mapping := { a.mapping with positive := m } }
        (updateAt devices d
           (fun jd => { jd with axes := updateAt jd.axes index.toNat setPos }),
         true, [])
      else
        let setNeg := fun (a : joystick_axis_t) =>
          { a with mapping := { a.mapping with negative := m } }
        (updateAt devices d
           (fun jd => { jd with axes := updateAt jd.axes index.toNat setNeg }),
         true, [])
    else
      (devices, false,
       ["input index " ++ toString state.input_index ++
        " too large for input type axis (pot), joystick " ++
        toString state.joy_index ++ "."])

/-- parser_set_button (joystick.c lines 1690-1706). -/
def parser_set_button (state : parser_state_t) (devices : List joystick_device_t) :
    List joystick_device_t × Bool × List String :=
  let d := state.joy_index.toNat
  let joydev := devices.getD d default
  let index := state.input_index
  if index < (joydev.buttons.length : Int) then
    let m := parser_set_mapping state
    let setBtn := fun (b : joystick_button_t) => { b with mapping := m }
    (updateAt devices d
       (fun jd => { jd with buttons := updateAt jd.buttons index.toNat setBtn }),
     true, [])
  else
    (devices, false,
     ["invalid button index " ++ toString index ++
      " for joystick " ++ toString state.joy_index ++ "."])

/-- parser_set_hat (joystick.c lines 1714-1749): index = input_index / 4,
direction = input_index % 4 in the fixed order up, down, left, right. -/
def parser_set_hat (state : parser_state_t) (devices : List joystick_device_t) :
    List joystick_device_t × Bool × List String :=
  let d := state.joy_index.toNat
  let joydev := devices.getD d default
  let index := state.input_index / 4
  let direction := state.input_index % 4
  if index < (joydev.hats.length : Int) then
    let m := parser_set_mapping state
    let setDir (f : joystick_hat_map_t → joystick_hat_map_t) :=
      let setHat := fun (h : joystick_hat_t) => { h with mapping := f h.mapping }
      (updateAt devices d
         (fun jd => { jd with hats := updateAt jd.hats index.toNat setHat }),
       true, ([] : List String))
    if direction = 0 then setDir (fun hm => { hm with up := m })
    else if direction = 1 then setDir (fun hm => { hm with down := m })
    else if direction = 2 then setDir (fun hm => { hm with left := m })
    else if direction = 3 then setDir (fun hm => { hm with right := m })
    else (devices, false, ["invalid direction " ++ toString direction ++ " for hat."])
  else
    (devices, false, ["invalid hat index " ++ toString index ++ "."])

/-- parser_set_ball (joystick.c lines 1758-1762): unimplemented. -/
def parser_set_ball (_state : parser_state_t) (devices : List joystick_device_t) :
    List joystick_device_t × Bool × List String :=
  (devices, false, ["balls are currently not supported."])

/-- The character class accepted inside a UI action name by
joy_arch_parse_entry (alnum, underscore, dash, colon). -/
def ui_name_char (c : Char) : Bool :=
  c.isAlphanum || c = '_' || c = '-' || c = ':'

/-- The validation half of joy_arch_parse_entry (joystick.c lines
1772-1930): check the four mandatory columns (the joystick-index check
needs only the number of registered devices) and parse the
action-specific arguments, producing either the filled parser state or
the error message to log. -/
def joy_arch_parse_entry_validate (ui_action_get_id : String → Int) (l : VjmLine)
    (num_devices : Nat) : Except String parser_state_t :=
  let nargs := min l.ints.length 4
  if nargs < 1 then .error "missing joystick number."
  else
    let joy_index := l.ints.getD 0 0
    if joy_index < 0 ∨ joy_index ≥ (num_devices : Int) then
      .error ("could not find joystick " ++ toString joy_index ++ ".")
    else if nargs < 2 then .error "missing input type."
    else
      let input_type := l.ints.getD 1 0
      if input_type < 0 ∨ input_type > 3 then
        .error ("invalid input type " ++ toString input_type ++ ".")
      else if nargs < 3 then .error "missing input type."
      else
        let input_index := l.ints.getD 2 0
        if input_index < 0 then
          .error "input index cannot be negative."
        else if nargs < 4 then .error "missing action number."
        else
          match joystick_action_decode (l.ints.getD 3 0) with
          | Option.none =>
            .error ("invalid action number " ++ toString (l.ints.getD 3 0) ++ ".")
          | some act =>
            let state : parser_state_t :=
              { joy_index := joy_index, input_type := input_type,
                input_index := input_index, action := act,
                pin := 0, pot := 0, ui_action_id := 0,
                key_row := 0, key_col := 0, key_flags := 0 }
            let rest := l.ints.drop 4
            match act with
            | .joystick =>
              match rest with
              | [] => .error "missing joystick pin number."
              | pin :: _ =>
                if pin < 0 ∨ pin > 65535 then
                  .error ("pin number " ++ toString pin ++ " out of bounds.")
                else .ok { state with pin := pin.toNat }
            | .keyboard =>
              let kn := min rest.length 3
              if kn < 2 then
                .error ("incomplete argument list for key press, got " ++
                        toString kn ++ " argument(s), expected 2 or 3.")
              else
                .ok { state with key_row := rest.getD 0 0,
                                 key_col := rest.getD 1 0,
                                 key_flags := if kn = 3 then rest.getD 2 0 else 0 }
            | .ui_function =>
              if rest ≠ [] then
                .error "invalid UI action name"
              else
                match l.word with
                | Option.none => .error "missing UI action name"
                | some w =>
                  match w.toList with
                  | [] => .error "missing UI action name"
                  | c :: cs =>
                    if ¬c.isAlpha then .error "invalid UI action name"
                    else
                      let action_name := String.mk (c :: (cs.takeWhile ui_name_char).take 255)
                      let id := ui_action_get_id action_name
                      if id ≤ 0 then
                        .error ("invalid action " ++ action_name)
                      else .ok { state with ui_action_id := id }
            | .pot_axis =>
              match rest with
              | [] => .error "missing potentiometer number."
              | v :: _ => .ok { state with pot := v }
            | _ => .ok state

/-- joy_arch_parse_entry (joystick.c lines 1772-1955) on one tokenised
data line: validate and parse the columns, then hand off to the axis,
button, hat or ball handler.  Returns the updated registry, the success
flag, and the error messages logged (joy_arch_mapping_load attaches file
name and line number to them).  The registry is returned unchanged on
every error path. -/
def joy_arch_parse_entry (ui_action_get_id : String → Int) (l : VjmLine)
    (devices : List joystick_device_t) :
    List joystick_device_t × Bool × List String :=
  match joy_arch_parse_entry_validate ui_action_get_id l devices.length with
  | .error msg => (devices, false, [msg])
  | .ok state =>
    if state.input_type = 0 then parser_set_axis state devices
    else if state.input_type = 1 then parser_set_button state devices
    else if state.input_type = 2 then parser_set_hat state devices
    else parser_set_ball state devices

/-- joy_arch_mapping_load (joystick.c lines 1958-2031), from the tokenised
line list: keyword lines are handed to joy_arch_parse_keyword, data lines
to joy_arch_parse_entry (its per-line result is ignored: load continues),
and the line counter advances on every line.  Returns the final registry
and the logged errors as (filename, lineno, message). -/
def joy_arch_mapping_load_from (ui_action_get_id : String → Int) (filename : String) :
    List VjmEntry → Nat → List joystick_device_t →
    List joystick_device_t × List (String × Nat × String)
  | [], _, devices => (devices, [])
  | e :: rest, lineno, devices =>
    match e with
    | .comment => joy_arch_mapping_load_from ui_action_get_id filename rest (lineno + 1) devices
    | .keyword k =>
      joy_arch_mapping_load_from ui_action_get_id filename rest (lineno + 1)
        (joy_arch_parse_keyword k devices)
    | .line l =>
      let r := joy_arch_parse_entry ui_action_get_id l devices
      let next := joy_arch_mapping_load_from ui_action_get_id filename rest (lineno + 1) r.1
      (next.1, r.2.2.map (fun m => (filename, lineno, m)) ++ next.2)

/-- joy_arch_mapping_load: parse all lines starting at line 1 and return
success (0) after reaching end of file. -/
def joy_arch_mapping_load (ui_action_get_id : String → Int) (filename : String)
    (entries : List VjmEntry) (devices : List joystick_device_t) :
    List joystick_device_t × Int × List (String × Nat × String) :=
  let r := joy_arch_mapping_load_from ui_action_get_id filename entries 1 devices
  (r.1, 0, r.2)

/-- The registry effect of one parsed line (joy_arch_mapping_load's loop
body without the log bookkeeping; the registry result of
joy_arch_parse_entry does not depend on file name or line number). -/
def applyEntry (ui_action_get_id : String → Int)
    (devices : List joystick_device_t) (e : VjmEntry) : List joystick_device_t :=
  match e with
  | .comment => devices
  | .keyword k => joy_arch_parse_keyword k devices
  | .line l => (joy_arch_parse_entry ui_action_get_id l devices).1

/-- The registry effect of a whole mapping file. -/
def applyEntries (ui_action_get_id : String → Int) (entries : List VjmEntry)
    (devices : List joystick_device_t) : List joystick_device_t :=
  entries.foldl (applyEntry ui_action_get_id) devices

/-! ## The .vjm serializer (joystick.c lines 1352-1449) -/

/-- mapping_dump_map: one line "device input_type map_index action" plus
the action-specific arguments (pin for joystick, row and column - but not
the flags - for keyboard, the action name for UI function). -/
def mapping_dump_line (ui_action_get_name : Int → Option String)
    (device_index : Nat) (input_type : Nat) (map_index : Nat)
    (m : joystick_mapping_t) : VjmLine :=
  let extra : List Int :=
    match m with
    | .joystick pin => [(pin : Int)]
    | .keyboard row col _ => [row, col]
    | _ => []
  let w : Option String :=
    match m with
    | .ui_function id => ui_action_get_name id
    | _ => Option.none
  { ints := [(device_index : Int), (input_type : Int), (map_index : Int), m.action] ++ extra,
    word := w }

def mapping_dump_map (ui_action_get_name : Int → Option String)
    (device_index : Nat) (input_type : Nat) (map_index : Nat)
    (m : joystick_mapping_t) : VjmEntry :=
  .line (mapping_dump_line ui_action_get_name device_index input_type map_index m)

/-- The axis part of joy_arch_mapping_dump: a pot-mapped axis (pot > 0)
dumps a single pot line with the axis index; otherwise the positive
mapping is dumped at input index 2*idx and the negative at 2*idx+1. -/
def joy_arch_mapping_dump_axes (ui_action_get_name : Int → Option String)
    (dev_idx : Nat) : Nat → List joystick_axis_t → List VjmEntry
  | _, [] => []
  | idx, axis :: rest =>
    (if axis.mapping.pot > 0 then
       [VjmEntry.line { ints := [(dev_idx : Int), 0, (idx : Int), 6, axis.mapping.pot],
                        word := Option.none }]
     else
       [mapping_dump_map ui_action_get_name dev_idx 0 (2 * idx) axis.mapping.positive,
        mapping_dump_map ui_action_get_name dev_idx 0 (2 * idx + 1) axis.mapping.negative])
    ++ joy_arch_mapping_dump_axes ui_action_get_name dev_idx (idx + 1) rest

/-- The button part of joy_arch_mapping_dump. -/
def joy_arch_mapping_dump_buttons (ui_action_get_name : Int → Option String)
    (dev_idx : Nat) : Nat → List joystick_button_t → List VjmEntry
  | _, [] => []
  | idx, button :: rest =>
    mapping_dump_map ui_action_get_name dev_idx 1 idx button.mapping ::
    joy_arch_mapping_dump_buttons ui_action_get_name dev_idx (idx + 1) rest

/-- The hat part of joy_arch_mapping_dump: input indexes 4*idx .. 4*idx+3
are hardcoded to up, down, left and right. -/
def joy_arch_mapping_dump_hats (ui_action_get_name : Int → Option String)
    (dev_idx : Nat) : Nat → List joystick_hat_t → List VjmEntry
  | _, [] => []
  | idx, hat :: rest =>
    [mapping_dump_map ui_action_get_name dev_idx 2 (4 * idx) hat.mapping.up,
     mapping_dump_map ui_action_get_name dev_idx 2 (4 * idx + 1) hat.mapping.down,
     mapping_dump_map ui_action_get_name dev_idx 2 (4 * idx + 2) hat.mapping.left,
     mapping_dump_map ui_action_get_name dev_idx 2 (4 * idx + 3) hat.mapping.right]
    ++ joy_arch_mapping_dump_hats ui_action_get_name dev_idx (idx + 1) rest

/-- One device section of the dump: a comment with the device name, then
all axis, button and hat mappings. -/
def joy_arch_mapping_dump_device (ui_action_get_name : Int → Option String)
    (dev_idx : Nat) (joydev : joystick_device_t) : List VjmEntry :=
  VjmEntry.comment ::
  (joy_arch_mapping_dump_axes ui_action_get_name dev_idx 0 joydev.axes ++
   joy_arch_mapping_dump_buttons ui_action_get_name dev_idx 0 joydev.buttons ++
   joy_arch_mapping_dump_hats ui_action_get_name dev_idx 0 joydev.hats)

def joy_arch_mapping_dump_devices (ui_action_get_name : Int → Option String) :
    Nat → List joystick_device_t → List VjmEntry
  | _, [] => []
  | idx, d :: rest =>
    joy_arch_mapping_dump_device ui_action_get_name idx d ++
    joy_arch_mapping_dump_devices ui_action_get_name (idx + 1) rest

/-- joy_arch_mapping_dump: the comment header, the !CLEAR keyword line,
then every device section in registry order. -/
def joy_arch_mapping_dump (ui_action_get_name : Int → Option String)
    (devices : List joystick_device_t) : List VjmEntry :=
  VjmEntry.comment :: VjmEntry.keyword "CLEAR" ::
  joy_arch_mapping_dump_devices ui_action_get_name 0 devices

/-! ## Dumpability conditions and the round-trip transform -/

/-- A UI action id is serialisable: the external UI-action name table
resolves it to a name that survives the parser's character scan and
resolves back to the same (positive) id. -/
def ui_name_ok (ui_action_get_name : Int → Option String)
    (ui_action_get_id : String → Int) (id : Int) : Bool :=
  match ui_action_get_name id with
  | Option.none => false
  | some nm =>
    match nm.toList with
    | [] => false
    | c :: cs =>
      c.isAlpha && ((cs.takeWhile ui_name_char).take 255 == cs) &&
      (ui_action_get_id nm == id) && (0 < id : Bool)

/-- A slot mapping is dumpable: a joystick pin fits in 16 bits (it is a
uint16_t in the source), a UI-function id is resolvable both ways, and a
slot never holds the POT_AXIS action (pot mappings live in
axis->mapping.pot, not in a joystick_mapping_t slot). -/
def mapping_wf (ui_action_get_name : Int → Option String)
    (ui_action_get_id : String → Int) : joystick_mapping_t → Bool
  | .joystick pin => decide (pin ≤ 65535)
  | .ui_function id => ui_name_ok ui_action_get_name ui_action_get_id id
  | .pot_axis => false
  | _ => true

/-- Every slot mapping of the device is dumpable. -/
def device_wf (ui_action_get_name : Int → Option String)
    (ui_action_get_id : String → Int) (d : joystick_device_t) : Bool :=
  d.axes.all (fun a =>
    mapping_wf ui_action_get_name ui_action_get_id a.mapping.positive &&
    mapping_wf ui_action_get_name ui_action_get_id a.mapping.negative) &&
  d.buttons.all (fun b => mapping_wf ui_action_get_name ui_action_get_id b.mapping) &&
  d.hats.all (fun h =>
    mapping_wf ui_action_get_name ui_action_get_id h.mapping.up &&
    mapping_wf ui_action_get_name ui_action_get_id h.mapping.down &&
    mapping_wf ui_action_get_name ui_action_get_id h.mapping.left &&
    mapping_wf ui_action_get_name ui_action_get_id h.mapping.right)

/-- The keyboard flags payload is not serialised by mapping_dump_map, so
a reloaded keyboard mapping has flags 0; all other mappings reload
unchanged. -/
def zero_key_flags : joystick_mapping_t → joystick_mapping_t
  | .keyboard row col _ => .keyboard row col 0
  | m => m

/-- What one axis looks like after dump and reload: a pot-mapped axis
(pot > 0) keeps its pot but its direction slots stay cleared (the dump
emits only the pot line for it); otherwise the direction slots come back
with keyboard flags zeroed. -/
def restored_axis (a : joystick_axis_t) : joystick_axis_t :=
  if a.mapping.pot > 0 then clear_axis a
  else
    { a with mapping := { a.mapping with
        positive := zero_key_flags a.mapping.positive,
        negative := zero_key_flags a.mapping.negative } }

def restored_button (b : joystick_button_t) : joystick_button_t :=
  { b with mapping := zero_key_flags b.mapping }

def restored_hat (h : joystick_hat_t) : joystick_hat_t :=
  { h with mapping := { up := zero_key_flags h.mapping.up,
                        down := zero_key_flags h.mapping.down,
                        left := zero_key_flags h.mapping.left,
                        right := zero_key_flags h.mapping.right } }

def restored_device (d : joystick_device_t) : joystick_device_t :=
  { d with axes := d.axes.map restored_axis,
           buttons := d.buttons.map restored_button,
           hats := d.hats.map restored_hat }

/-! ## Device registration (joystick.c lines 3463-3737) -/

/-- The C isspace character class used by joystick_device_trim_name. -/
def isspace_c (c : Char) : Bool :=
  c = ' ' || c = '\t' || c = '\n' || c = '\x0b' || c = '\x0c' || c = '\r'

/-- joystick_device_trim_name (joystick.c lines 3470-3481): right-trim
whitespace and limit the name to 255 characters. -/
def joystick_device_trim_name (joydev : joystick_device_t) : joystick_device_t :=
  let trimmed := String.mk (((joydev.name.toList.reverse.dropWhile isspace_c).reverse).take 255)
  { joydev with name := trimmed }

/-- order_inputs_on_code (joystick.c lines 3637-3674): sort the axes,
buttons and hats on their backend event code (only when a collection has
more than one element, as in the source) and regenerate the index of
every input as its position. -/
def order_inputs_on_code (joydev : joystick_device_t) : joystick_device_t :=
  let axes := if joydev.axes.length > 1 then
                joydev.axes.mergeSort (fun a b => a.code ≤ b.code)
              else joydev.axes
  let buttons := if joydev.buttons.length > 1 then
                   joydev.buttons.mergeSort (fun a b => a.code ≤ b.code)
                 else joydev.buttons
  let hats := if joydev.hats.length > 1 then
                joydev.hats.mergeSort (fun a b => a.code ≤ b.code)
              else joydev.hats
  { joydev with
    axes := axes.mapIdx (fun i a => { a with index := (i : Int) }),
    buttons := buttons.mapIdx (fun i b => { b with index := (i : Int) }),
    hats := hats.mapIdx (fun i h => { h with index := (i : Int) }) }

/-- joystick_device_apply_default_mapping (joystick.c lines 3495-3565).
JOYSTICK_DIRECTION_UP/DOWN/LEFT/RIGHT are the pin values 1/2/4/8;
JOYPORT_FIRE is JOYPAD_FIRE = 0x10 and the secondary/ternary fire pot
buttons JOYPORT_FIRE_POTX/POTY are the next two fire bits 0x20/0x40
(JOYPAD_FIRE2/FIRE3 in joystick.c). -/
def joystick_device_apply_default_mapping (joydev : joystick_device_t) :
    joystick_device_t × Bool :=
  let dirs :=
    if joydev.hats.length > 0 then
      let setHat := fun (hat : joystick_hat_t) =>
        { hat with mapping := { up := .joystick 1, down := .joystick 2,
                                left := .joystick 4, right := .joystick 8 } }
      some { joydev with hats := updateAt joydev.hats 0 setHat }
    else if joydev.axes.length > 1 then
      let setX := fun (x : joystick_axis_t) =>
        { x with mapping := { x.mapping with negative := .joystick 4, positive := .joystick 8 } }
      let setY := fun (y : joystick_axis_t) =>
        { y with mapping := { y.mapping with negative := .joystick 1, positive := .joystick 2 } }
      some { joydev with axes := updateAt (updateAt joydev.axes 0 setX) 1 setY }
    else
      Option.none
  match dirs with
  | Option.none => (joydev, false)
  | some joydev =>
    if joydev.buttons.length = 0 then (joydev, false)
    else
      let setB := fun (pin : Nat) (b : joystick_button_t) => { b with mapping := .joystick pin }
      let joydev := { joydev with buttons := updateAt joydev.buttons 0 (setB 16) }
      let joydev := if joydev.buttons.length > 1 then
                      { joydev with buttons := updateAt joydev.buttons 1 (setB 32) }
                    else joydev
      let joydev := if joydev.buttons.length > 2 then
                      { joydev with buttons := updateAt joydev.buttons 2 (setB 64) }
                    else joydev
      (joydev, true)

/-- The minimum-input invariant checked by joystick_device_register:
at least one button and (at least two axes or at least one hat). -/
def device_min_inputs (joydev : joystick_device_t) : Prop :=
  (joydev.axes.length ≥ 2 ∨ joydev.hats.length ≥ 1) ∧ joydev.buttons.length ≥ 1

instance (joydev : joystick_device_t) : Decidable (device_min_inputs joydev) := by
  unfold device_min_inputs; infer_instance

/-- joystick_device_register (joystick.c lines 3688-3737): a device with
too few inputs is closed and freed and registration fails with the
registry unchanged; otherwise the name is trimmed, the inputs are sorted
on code (unless disabled), the default mapping is applied (its result is
ignored), the optional driver customize hook runs, and the device is
appended.  `customize` models the external joy_driver.customize hook. -/
def joystick_device_register (customize : Option (joystick_device_t → joystick_device_t))
    (devices : List joystick_device_t) (joydev : joystick_device_t) :
    Bool × List joystick_device_t :=
  if ¬((joydev.axes.length ≥ 2 ∨ joydev.hats.length ≥ 1) ∧ joydev.buttons.length ≥ 1) then
    (false, devices)
  else
    let joydev := joystick_device_trim_name joydev
    let joydev := if ¬joydev.disable_sort then order_inputs_on_code joydev else joydev
    let joydev := (joystick_device_apply_default_mapping joydev).1
    let joydev := match customize with
                  | some f => f joydev
                  | Option.none => joydev
    (true, devices ++ [joydev])

/-! ## Concrete states and devices used by the witnesses below -/

/-- A quiescent input-subsystem state: nothing pressed, no hooks, default
options, playback inactive. -/
def initJoyState : JoyState :=
  { event_playback := false, joystick_opposite_enable := false,
    latch_values := fun _ => 0, last_used_joyport := JOYPORT_MAX_PORTS,
    latch_scheduled := 0, joystick_hook := fun _ => false,
    joystick_hook_mask := fun _ => 0, joystick_hook_state := fun _ => 0,
    gtkjoy_pins := fun _ _ => 0 }

/-- The same state during event playback. -/
def playbackJoyState : JoyState := { initJoyState with event_playback := true }

def wAxis (pot : Int) (pos neg : joystick_mapping_t) : joystick_axis_t :=
  { code := 0, index := 0, digital := false, invert := false,
    minimum := -32768, maximum := 32767,
    threshold_negative := -16384, threshold_positive := 16383,
    prev := .middle, mapping := { pot := pot, positive := pos, negative := neg },
    joyport := 0 }

def wButton (m : joystick_mapping_t) : joystick_button_t :=
  { code := 0, index := 0, prev := 0, mapping := m, joyport := 0 }

def wHat (u d l r : joystick_mapping_t) : joystick_hat_t :=
  { code := 0, index := 0, prev := 0,
    mapping := { up := u, down := d, left := l, right := r }, joyport := 0 }

def wDevice (axes : List joystick_axis_t) (buttons : List joystick_button_t)
    (hats : List joystick_hat_t) : joystick_device_t :=
  { name := "pad", vendor := 0, product := 0, axes := axes, buttons := buttons,
    hats := hats, disable_sort := false, joyport := 0 }

/-- An analog axis resting in the middle. -/
def c3_axis : joystick_axis_t := wAxis 0 (.joystick 8) (.joystick 4)

/-- A button whose previous raw value is 1 (held). -/
def c3_button_cex : joystick_button_t :=
  { code := 0, index := 0, prev := 1, mapping := .joystick 16, joyport := 0 }

/-- A hat at rest. -/
def c3_hat : joystick_hat_t := wHat (.joystick 1) (.joystick 2) (.joystick 4) (.joystick 8)

/-- A device holding a keyboard mapping with non-zero flags (payload 5)
on its button; the flags are lost by the dump/reload round trip. -/
def c4_device : joystick_device_t :=
  wDevice [wAxis 0 (.joystick 8) (.joystick 4), wAxis 0 (.joystick 2) (.joystick 1)]
          [wButton (.keyboard 1 2 5)] []

def c4_registry : List joystick_device_t := [c4_device]

/-- A fully mapped device exercising every slot kind for the round-trip
witness: a pot-mapped axis, a keyboard axis, a pin button and a hat. -/
def c4w_device : joystick_device_t :=
  wDevice [wAxis 1 (.joystick 8) (.joystick 4), wAxis 0 (.keyboard 3 4 0) .map]
          [wButton (.joystick 16), wButton .ui_activate]
          [wHat (.joystick 1) (.joystick 2) (.joystick 4) (.joystick 8)]

def c4w_registry : List joystick_device_t := [c4w_device]

/-- joystick_value contents at snapshot-write time: port 0 holds 7. -/
def c5_value_at_write : Nat → Nat := fun p => if p = 0 then 7 else 0

/-- joystick_value contents when the snapshot is read back: all zero. -/
def c5_value_at_read : Nat → Nat := fun _ => 0

/-- A device whose first axis is mapped to potentiometer 1. -/
def c6_device : joystick_device_t :=
  wDevice [wAxis 1 (.joystick 8) joystick_mapping_t.none] [wButton (.joystick 16)] []

/-- A registry for the malformed-line witness: one device with a single
button (fewer than 1000). -/
def c7_device : joystick_device_t :=
  wDevice [wAxis 0 (.joystick 8) (.joystick 4), wAxis 0 (.joystick 2) (.joystick 1)]
          [wButton (.joystick 16)] []

/-- The malformed line 0 1 999 1 16: button index 999 on device 0. -/
def c7_mal_line : VjmLine := { ints := [0, 1, 999, 1, 16], word := Option.none }

/-- A device with no inputs at all: fails the minimum-input check. -/
def c8_bad_device : joystick_device_t := wDevice [] [] []

/-- A registrable device for the witness. -/
def c8_good_device : joystick_device_t :=
  wDevice [] [wButton joystick_mapping_t.none]
          [wHat joystick_mapping_t.none joystick_mapping_t.none
                joystick_mapping_t.none joystick_mapping_t.none]

/-! # Theorems -/

/-! ## Generic helper lemmas -/

theorem updFn_self {α : Type} (f : Nat → α) (i : Nat) (v : α) : updFn f i v i = v := by
  simp [updFn]

theorem updFn2_self (f : Nat → Nat → Nat) (i j v : Nat) : updFn2 f i j v i j = v := by
  simp [updFn2]

theorem foldl_mem_ident {α : Type} (f : α → Nat → α) :
    ∀ (l : List Nat), (∀ (s : α) (j : Nat), j ∈ l → f s j = s) → ∀ (s : α),
      l.foldl f s = s
  | [], _, _ => rfl
  | x :: xs, h, s => by
    simp only [List.foldl_cons]
    rw [h s x (by simp)]
    exact foldl_mem_ident f xs (fun s j hj => h s j (by simp [hj])) s

theorem foldl_range_single {α : Type} (f : α → Nat → α) :
    ∀ (n i : Nat), i < n → (∀ (s : α) (j : Nat), j ≠ i → f s j = s) →
    ∀ (s : α), (List.range n).foldl f s = f s i := by
  intro n
  induction n with
  | zero => exact fun i hi _ _ => absurd hi (Nat.not_lt_zero i)
  | succ n ih =>
    intro i hi hid s
    rw [List.range_succ, List.foldl_append]
    simp only [List.foldl_cons, List.foldl_nil]
    by_cases hin : i = n
    · subst hin
      rw [foldl_mem_ident f (List.range i)
            (fun s j hj => hid s j (by simp only [List.mem_range] at hj; omega))]
    · have hi2 : i < n := by omega
      rw [ih i hi2 hid s, hid (f s i) n (by omega)]

theorem shl_and_shl_ne {i j : Nat} (h : j ≠ i) : (1 <<< i) &&& (1 <<< j) = 0 := by
  rw [Nat.one_shiftLeft, Nat.one_shiftLeft]
  apply Nat.eq_of_testBit_eq
  intro k
  rw [Nat.testBit_and, Nat.testBit_two_pow, Nat.testBit_two_pow, Nat.zero_testBit]
  by_cases hik : i = k
  · have : ¬(j = k) := by omega
    simp [this]
  · simp [hik]

theorem shl_and_self (i : Nat) : (1 <<< i) &&& (1 <<< i) ≠ 0 := by
  rw [Nat.one_shiftLeft, Nat.and_self]
  exact (Nat.two_pow_pos i).ne'

theorem testBit_65535_of_lt : ∀ i, i < 16 → (65535 : Nat).testBit i = true := by decide

theorem opposite_self_bit :
    ∀ i, i < 16 → (joystick_opposite_direction ((1 <<< i) &&& 15)).testBit i = false := by
  decide

/-! ## Field-preservation lemmas for the latch operations -/

@[simp] theorem joystick_process_latch_latch_values (s : JoyState) :
    (joystick_process_latch s).latch_values = s.latch_values := rfl

@[simp] theorem joystick_process_latch_event_playback (s : JoyState) :
    (joystick_process_latch s).event_playback = s.event_playback := rfl

@[simp] theorem joystick_process_latch_gtkjoy_pins (s : JoyState) :
    (joystick_process_latch s).gtkjoy_pins = s.gtkjoy_pins := rfl

@[simp] theorem joystick_process_latch_opposite (s : JoyState) :
    (joystick_process_latch s).joystick_opposite_enable = s.joystick_opposite_enable := rfl

@[simp] theorem joystick_handle_hooks_latch_values (jp : Nat) (s : JoyState) :
    (joystick_handle_hooks jp s).latch_values = s.latch_values := by
  unfold joystick_handle_hooks
  dsimp only
  split <;> (try split) <;> rfl

@[simp] theorem joystick_handle_hooks_event_playback (jp : Nat) (s : JoyState) :
    (joystick_handle_hooks jp s).event_playback = s.event_playback := by
  unfold joystick_handle_hooks
  dsimp only
  split <;> (try split) <;> rfl

@[simp] theorem joystick_handle_hooks_gtkjoy_pins (jp : Nat) (s : JoyState) :
    (joystick_handle_hooks jp s).gtkjoy_pins = s.gtkjoy_pins := by
  unfold joystick_handle_hooks
  dsimp only
  split <;> (try split) <;> rfl

@[simp] theorem joystick_handle_hooks_opposite (jp : Nat) (s : JoyState) :
    (joystick_handle_hooks jp s).joystick_opposite_enable = s.joystick_opposite_enable := by
  unfold joystick_handle_hooks
  dsimp only
  split <;> (try split) <;> rfl

/-- Characterisation of joystick_set_value_or outside playback. -/
theorem set_value_or_char (p v : Nat) (s : JoyState) (hp : s.event_playback = false) :
    (joystick_set_value_or p v s).latch_values p =
      (if s.joystick_opposite_enable then s.latch_values p ||| v
       else (s.latch_values p ||| v) &&&
            (65535 ^^^ joystick_opposite_direction (v &&& 0xf))) ∧
    (joystick_set_value_or p v s).gtkjoy_pins = s.gtkjoy_pins ∧
    (joystick_set_value_or p v s).event_playback = false ∧
    (joystick_set_value_or p v s).joystick_opposite_enable = s.joystick_opposite_enable := by
  unfold joystick_set_value_or
  by_cases hopp : s.joystick_opposite_enable <;>
    simp [hp, hopp, updFn]

/-- Characterisation of joystick_set_value_and outside playback. -/
theorem set_value_and_char (p v : Nat) (s : JoyState) (hp : s.event_playback = false) :
    (joystick_set_value_and p v s).latch_values p = s.latch_values p &&& v ∧
    (joystick_set_value_and p v s).gtkjoy_pins = s.gtkjoy_pins ∧
    (joystick_set_value_and p v s).event_playback = false ∧
    (joystick_set_value_and p v s).joystick_opposite_enable = s.joystick_opposite_enable := by
  unfold joystick_set_value_and
  simp [hp, updFn]

/-! ## C10 -/

/-- C10: while event playback is active, joystick_set_value_absolute,
joystick_set_value_or and joystick_set_value_and return immediately and
leave the entire input-subsystem state unchanged (latched values,
last-used-port marker, scheduled latch updates, hooks, press counters). -/
theorem c10_playback_writes_are_noops (joyport value : Nat) (s : JoyState)
    (h : s.event_playback = true) :
    joystick_set_value_absolute joyport value s = s ∧
    joystick_set_value_or joyport value s = s ∧
    joystick_set_value_and joyport value s = s := by
  unfold joystick_set_value_absolute joystick_set_value_or joystick_set_value_and
  simp [h]

theorem c10_witness :
    joystick_set_value_absolute 0 1 playbackJoyState = playbackJoyState ∧
    joystick_set_value_or 0 1 playbackJoyState = playbackJoyState ∧
    joystick_set_value_and 0 1 playbackJoyState = playbackJoyState :=
  c10_playback_writes_are_noops 0 1 playbackJoyState rfl

/-! ## C5 -/

/-- C5 (code bug): writing port 0's snapshot module serialises
joystick_value[0] (here 7), but reading the module back stores the word
into joystick_value[0 + 1]: with the array zeroed before the read, port 0
stays 0 and port 1 receives the 7. -/
theorem c5_snapshot_read_off_by_one :
    (joystick_snapshot_read_module
        (joystick_snapshot_write_module [] c5_value_at_write 0)
        c5_value_at_read 0).map (fun f => (f 0, f 1)) = some (0, 7) := by
  rfl

/-! ## C2 -/

/-- C2: with opposite directions disallowed, OR-ing in left (0x04) and
then right (0x08) never leaves both bits set: after the first write left
is set and right clear, after the second write right is set and left
clear; symmetrically for up (0x01) then down (0x02). -/
theorem c2_opposite_direction_masking (p : Nat) (s : JoyState)
    (hp : s.event_playback = false)
    (hopp : s.joystick_opposite_enable = false) :
    (((joystick_set_value_or p JOYPAD_W s).latch_values p).testBit 2 = true ∧
     ((joystick_set_value_or p JOYPAD_W s).latch_values p).testBit 3 = false ∧
     ((joystick_set_value_or p JOYPAD_E
         (joystick_set_value_or p JOYPAD_W s)).latch_values p).testBit 3 = true ∧
     ((joystick_set_value_or p JOYPAD_E
         (joystick_set_value_or p JOYPAD_W s)).latch_values p).testBit 2 = false) ∧
    (((joystick_set_value_or p JOYPAD_N s).latch_values p).testBit 0 = true ∧
     ((joystick_set_value_or p JOYPAD_N s).latch_values p).testBit 1 = false ∧
     ((joystick_set_value_or p JOYPAD_S
         (joystick_set_value_or p JOYPAD_N s)).latch_values p).testBit 1 = true ∧
     ((joystick_set_value_or p JOYPAD_S
         (joystick_set_value_or p JOYPAD_N s)).latch_values p).testBit 0 = false) := by
  obtain ⟨h1, -, hpb1, hopp1⟩ := set_value_or_char p JOYPAD_W s hp
  obtain ⟨h2, -, -, -⟩ := set_value_or_char p JOYPAD_E _ hpb1
  obtain ⟨h3, -, hpb3, hopp3⟩ := set_value_or_char p JOYPAD_N s hp
  obtain ⟨h4, -, -, -⟩ := set_value_or_char p JOYPAD_S _ hpb3
  rw [hopp] at h1 h3
  rw [hopp1, hopp] at h2
  rw [hopp3, hopp] at h4
  simp only [Bool.false_eq_true, if_false] at h1 h2 h3 h4
  rw [h1] at h2
  rw [h3] at h4
  have e4 : joystick_opposite_direction (JOYPAD_W &&& 15) = 8 := by decide
  have e8 : joystick_opposite_direction (JOYPAD_E &&& 15) = 4 := by decide
  have e1 : joystick_opposite_direction (JOYPAD_N &&& 15) = 2 := by decide
  have e2 : joystick_opposite_direction (JOYPAD_S &&& 15) = 1 := by decide
  rw [e4] at h1 h2
  rw [e8] at h2
  rw [e1] at h3 h4
  rw [e2] at h4
  have t42 : (4 : Nat).testBit 2 = true := by decide
  have t43 : (4 : Nat).testBit 3 = false := by decide
  have t82 : (8 : Nat).testBit 2 = false := by decide
  have t83 : (8 : Nat).testBit 3 = true := by decide
  have t10 : (1 : Nat).testBit 0 = true := by decide
  have t11 : (1 : Nat).testBit 1 = false := by decide
  have t20 : (2 : Nat).testBit 0 = false := by decide
  have t21 : (2 : Nat).testBit 1 = true := by decide
  have x8b2 : (65527 : Nat).testBit 2 = true := by decide
  have x8b3 : (65527 : Nat).testBit 3 = false := by decide
  have x4b2 : (65531 : Nat).testBit 2 = false := by decide
  have x4b3 : (65531 : Nat).testBit 3 = true := by decide
  have x2b0 : (65533 : Nat).testBit 0 = true := by decide
  have x2b1 : (65533 : Nat).testBit 1 = false := by decide
  have x1b0 : (65534 : Nat).testBit 0 = false := by decide
  have x1b1 : (65534 : Nat).testBit 1 = true := by decide
  refine ⟨⟨?_, ?_, ?_, ?_⟩, ?_, ?_, ?_, ?_⟩
  · rw [h1]
    simp [JOYPAD_W, Nat.testBit_or, Nat.testBit_and, t42, x8b2]
  · rw [h1]
    simp [JOYPAD_W, Nat.testBit_or, Nat.testBit_and, t43, x8b3]
  · rw [h2]
    simp [JOYPAD_W, JOYPAD_E, Nat.testBit_or, Nat.testBit_and,
          t43, t83, x8b3, x4b3]
  · rw [h2]
    simp [JOYPAD_W, JOYPAD_E, Nat.testBit_or, Nat.testBit_and,
          t42, t82, x8b2, x4b2]
  · rw [h3]
    simp [JOYPAD_N, Nat.testBit_or, Nat.testBit_and, t10, x2b0]
  · rw [h3]
    simp [JOYPAD_N, Nat.testBit_or, Nat.testBit_and, t11, x2b1]
  · rw [h4]
    simp [JOYPAD_N, JOYPAD_S, Nat.testBit_or, Nat.testBit_and,
          t11, t21, x2b1, x1b1]
  · rw [h4]
    simp [JOYPAD_N, JOYPAD_S, Nat.testBit_or, Nat.testBit_and,
          t10, t20, x2b0, x1b0]

theorem c2_witness :
    ((joystick_set_value_or 1 JOYPAD_W initJoyState).latch_values 1).testBit 2 = true ∧
    ((joystick_set_value_or 1 JOYPAD_W initJoyState).latch_values 1).testBit 3 = false ∧
    ((joystick_set_value_or 1 JOYPAD_E
        (joystick_set_value_or 1 JOYPAD_W initJoyState)).latch_values 1).testBit 3 = true ∧
    ((joystick_set_value_or 1 JOYPAD_E
        (joystick_set_value_or 1 JOYPAD_W initJoyState)).latch_values 1).testBit 2 = false :=
  (c2_opposite_direction_masking 1 initJoyState rfl rfl).1

/-! ## C9 -/

theorem testBit_65519 : ∀ j, j < 16 → (65519 : Nat).testBit j = decide (j ≠ 4) := by decide

theorem testBit_16 : ∀ j, j < 16 → (16 : Nat).testBit j = decide (j = 4) := by decide

theorem testBit_hi_of_lt (x j : Nat) (hx : x < 65536) (hj : 16 ≤ j) :
    x.testBit j = false := by
  refine Nat.testBit_lt_two_pow (lt_of_lt_of_le hx ?_)
  calc (65536 : Nat) = 2 ^ 16 := by norm_num
  _ ≤ 2 ^ j := Nat.pow_le_pow_right (by norm_num) hj

/-- C9: with autofire enabled and mode press, a released physical fire
passes through unchanged (fire bit stays 0) and a held physical fire is
replaced by the even/odd parity of
(maincpu_clk mod cycles_per_second) / (cycles_per_second / (2 * speed)),
even selecting pressed; with mode permanent, a held fire passes through
as 1 and the parity pattern is applied only while fire is released. -/
theorem c9_autofire_read (value sp cps clk : Nat) (hv : value < 65536) :
    ((value.testBit 4 = false →
        get_joystick_value value true false sp cps clk = value) ∧
     (value.testBit 4 = true →
        (get_joystick_value value true false sp cps clk).testBit 4 =
          decide ((clk % cps) / (cps / (2 * sp)) % 2 = 0))) ∧
    ((value.testBit 4 = true →
        get_joystick_value value true true sp cps clk = value) ∧
     (value.testBit 4 = false →
        (get_joystick_value value true true sp cps clk).testBit 4 =
          decide ((clk % cps) / (cps / (2 * sp)) % 2 = 0))) := by
  have hfb : (value >>> 4) &&& 1 = value / 2 ^ 4 % 2 := by
    rw [Nat.shiftRight_eq_div_pow, Nat.and_one_is_mod]
  have hswap : cps / (2 * sp) = cps / (sp * 2) := by rw [Nat.mul_comm]
  have hflipmod : (clk % cps) / (cps / (sp * 2)) &&& 1 = (clk % cps) / (cps / (sp * 2)) % 2 :=
    Nat.and_one_is_mod _
  have hmask : ∀ hb : value.testBit 4 = true, (value &&& 65519) ||| 16 = value := by
    intro hb
    apply Nat.eq_of_testBit_eq
    intro j
    rw [Nat.testBit_or, Nat.testBit_and]
    by_cases hj : j < 16
    · by_cases hj4 : j = 4
      · subst hj4
        rw [hb, testBit_65519 4 (by omega), testBit_16 4 (by omega)]
        simp
      · rw [testBit_65519 j hj, testBit_16 j hj]
        simp [hj4]
    · rw [testBit_hi_of_lt value j hv (by omega),
          testBit_hi_of_lt 65519 j (by norm_num) (by omega),
          testBit_hi_of_lt 16 j (by norm_num) (by omega)]
      simp
  have hmask0 : ∀ hb : value.testBit 4 = false, value &&& 65519 = value := by
    intro hb
    apply Nat.eq_of_testBit_eq
    intro j
    rw [Nat.testBit_and]
    by_cases hj : j < 16
    · by_cases hj4 : j = 4
      · subst hj4; rw [hb]; simp
      · rw [testBit_65519 j hj]; simp [hj4]
    · rw [testBit_hi_of_lt value j hv (by omega),
          testBit_hi_of_lt 65519 j (by norm_num) (by omega)]
      simp
  have hbit4or16 : ∀ x : Nat, (x ||| 16).testBit 4 = true := by
    intro x
    rw [Nat.testBit_or, testBit_16 4 (by omega)]
    simp
  have hbit4and : (value &&& 65519).testBit 4 = false := by
    rw [Nat.testBit_and, testBit_65519 4 (by omega)]
    simp
  unfold get_joystick_value get_joystick_autofire
  rw [hswap]
  set flip := (clk % cps) / (cps / (sp * 2)) with hflipdef
  refine ⟨⟨?_, ?_⟩, ?_, ?_⟩ <;> intro hb
  · -- press mode, fire released: pass-through
    have hm : value / 2 ^ 4 % 2 = 0 := by
      have h := @Nat.testBit_to_div_mod 4 value
      rw [hb] at h
      simpa using h.symm
    simp only [hfb, hm, if_true, if_false, Bool.false_eq_true,
               ne_eq, not_true_eq_false, not_false_eq_true, ite_true, ite_false]
    simpa using hmask0 hb
  · -- press mode, fire held: parity pattern
    have hm : value / 2 ^ 4 % 2 = 1 := by
      have h := @Nat.testBit_to_div_mod 4 value
      rw [hb] at h
      simpa using h.symm
    simp only [hfb, hm, if_true, if_false, Bool.false_eq_true,
               ne_eq, ite_true, ite_false]
    by_cases hfo : flip &&& 1 ≠ 0
    · have h2 : flip % 2 = 1 := by
        rw [hflipmod] at hfo
        omega
      simp [hfo, hbit4and, h2, JOYPAD_FIRE]
    · have h0 : flip &&& 1 = 0 := not_ne_iff.mp hfo
      have h2 : flip % 2 = 0 := by
        rw [hflipmod] at h0
        omega
      simp [hfo, hbit4or16, h2, JOYPAD_FIRE]
  · -- permanent mode, fire held: pass-through as pressed
    have hm : value / 2 ^ 4 % 2 = 1 := by
      have h := @Nat.testBit_to_div_mod 4 value
      rw [hb] at h
      simpa using h.symm
    simp only [hfb, hm, if_true, if_false, Bool.false_eq_true,
               ne_eq, ite_true, ite_false]
    simpa [JOYPAD_FIRE] using hmask hb
  · -- permanent mode, fire released: parity pattern
    have hm : value / 2 ^ 4 % 2 = 0 := by
      have h := @Nat.testBit_to_div_mod 4 value
      rw [hb] at h
      simpa using h.symm
    simp only [hfb, hm, if_true, if_false, Bool.false_eq_true,
               ne_eq, ite_true, ite_false]
    by_cases hfo : flip &&& 1 ≠ 0
    · have h2 : flip % 2 = 1 := by
        rw [hflipmod] at hfo
        omega
      simp [hfo, hbit4and, h2, JOYPAD_FIRE]
    · have h0 : flip &&& 1 = 0 := not_ne_iff.mp hfo
      have h2 : flip % 2 = 0 := by
        rw [hflipmod] at h0
        omega
      simp [hfo, hbit4or16, h2, JOYPAD_FIRE]

theorem c9_witness :
    (get_joystick_value 16 true false 10 1000000 0).testBit 4 =
      decide ((0 % 1000000) / (1000000 / (2 * 10)) % 2 = 0) :=
  (c9_autofire_read 16 10 1000000 0 (by decide)).1.2 (by decide)

/-! ## C1 -/

/-- For a single-bit value the press-counter loop of gtkjoy_set_value_press
touches only that pin. -/
theorem gtkjoy_press_single (p i : Nat) (hi : i < JOYPORT_MAX_PINS) (s : JoyState) :
    gtkjoy_set_value_press p (1 <<< i) s =
      joystick_set_value_or p (1 <<< i)
        { s with gtkjoy_pins := updFn2 s.gtkjoy_pins p i (s.gtkjoy_pins p i + 1) } := by
  unfold gtkjoy_set_value_press
  have hid : ∀ (st : JoyState) (j : Nat), j ≠ i →
      (if (1 <<< i) &&& (1 <<< j) ≠ 0 then
        { st with gtkjoy_pins := updFn2 st.gtkjoy_pins p j (st.gtkjoy_pins p j + 1) }
       else st) = st := by
    intro st j hj
    simp [shl_and_shl_ne hj]
  rw [foldl_range_single _ JOYPORT_MAX_PINS i hi hid s, if_pos (shl_and_self i)]

/-- For a single-bit value the release loop of gtkjoy_set_value_release
touches only that pin. -/
theorem gtkjoy_release_single (p i : Nat) (hi : i < JOYPORT_MAX_PINS) (s : JoyState) :
    gtkjoy_set_value_release p (1 <<< i) s =
      (let st := if s.gtkjoy_pins p i > 0 then
                   let dec := updFn2 s.gtkjoy_pins p i (s.gtkjoy_pins p i - 1)
                   { s with gtkjoy_pins := dec }
                 else s
       if st.gtkjoy_pins p i = 0 then
         joystick_set_value_and p (65535 ^^^ (1 <<< i)) st
       else st) := by
  unfold gtkjoy_set_value_release
  have hid : ∀ (st : JoyState) (j : Nat), j ≠ i →
      (if (1 <<< i) &&& (1 <<< j) ≠ 0 then
        (let st2 := if st.gtkjoy_pins p j > 0 then
                      let dec := updFn2 st.gtkjoy_pins p j (st.gtkjoy_pins p j - 1)
                      { st with gtkjoy_pins := dec }
                    else st
         if st2.gtkjoy_pins p j = 0 then
           joystick_set_value_and p (65535 ^^^ (1 <<< i)) st2
         else st2)
       else st) = st := by
    intro st j hj
    simp [shl_and_shl_ne hj]
  rw [foldl_range_single _ JOYPORT_MAX_PINS i hi hid s, if_pos (shl_and_self i)]

/-- Effect of pressing a single pin: the counter goes up by one and the
pin bit is set in the latch (the opposite-direction mask never clears the
single pressed bit itself). -/
theorem gtkjoy_press_char (p i : Nat) (hi : i < JOYPORT_MAX_PINS) (s : JoyState)
    (hp : s.event_playback = false) :
    (gtkjoy_set_value_press p (1 <<< i) s).event_playback = false ∧
    (gtkjoy_set_value_press p (1 <<< i) s).gtkjoy_pins p i = s.gtkjoy_pins p i + 1 ∧
    ((gtkjoy_set_value_press p (1 <<< i) s).latch_values p).testBit i = true := by
  have hi16 : i < 16 := hi
  rw [gtkjoy_press_single p i hi s]
  obtain ⟨hl, hpins, hpb, -⟩ :=
    set_value_or_char p (1 <<< i)
      { s with gtkjoy_pins := updFn2 s.gtkjoy_pins p i (s.gtkjoy_pins p i + 1) } hp
  refine ⟨hpb, ?_, ?_⟩
  · rw [hpins]
    exact updFn2_self s.gtkjoy_pins p i (s.gtkjoy_pins p i + 1)
  · rw [hl]
    split
    · rw [Nat.testBit_or, Nat.one_shiftLeft, Nat.testBit_two_pow]
      simp
    · rw [Nat.testBit_and, Nat.testBit_or, Nat.testBit_xor,
          testBit_65535_of_lt i hi16, opposite_self_bit i hi16]
      rw [Nat.one_shiftLeft, Nat.testBit_two_pow]
      simp

/-- Effect of releasing a single pin: the counter goes down by one (not
below zero) and the pin bit survives in the latch exactly when the new
counter is still non-zero. -/
theorem gtkjoy_release_char (p i : Nat) (hi : i < JOYPORT_MAX_PINS) (s : JoyState)
    (hp : s.event_playback = false) :
    (gtkjoy_set_value_release p (1 <<< i) s).event_playback = false ∧
    (gtkjoy_set_value_release p (1 <<< i) s).gtkjoy_pins p i = s.gtkjoy_pins p i - 1 ∧
    ((gtkjoy_set_value_release p (1 <<< i) s).latch_values p).testBit i =
      (decide (s.gtkjoy_pins p i - 1 ≠ 0) && (s.latch_values p).testBit i) := by
  have hi16 : i < 16 := hi
  have hxor : ∀ L : Nat, (L &&& (65535 ^^^ (1 <<< i))).testBit i = false := by
    intro L
    rw [Nat.testBit_and, Nat.testBit_xor, testBit_65535_of_lt i hi16,
        Nat.one_shiftLeft, Nat.testBit_two_pow]
    simp
  rw [gtkjoy_release_single p i hi s]
  dsimp only
  by_cases hc : s.gtkjoy_pins p i = 0
  · simp only [hc, if_neg (show ¬((0 : Nat) > 0) from by omega), if_true]
    obtain ⟨hl, hpins, hpb, -⟩ := set_value_and_char p (65535 ^^^ (1 <<< i)) s hp
    refine ⟨hpb, ?_, ?_⟩
    · rw [hpins, hc]
    · rw [hl, hxor]
      simp
  · have hgt : s.gtkjoy_pins p i > 0 := Nat.pos_of_ne_zero hc
    rw [if_pos hgt]
    have hcond : ({ s with gtkjoy_pins := updFn2 s.gtkjoy_pins p i (s.gtkjoy_pins p i - 1) } :
        JoyState).gtkjoy_pins p i = s.gtkjoy_pins p i - 1 :=
      updFn2_self s.gtkjoy_pins p i _
    by_cases hk : s.gtkjoy_pins p i - 1 = 0
    · rw [if_pos (hcond.trans hk)]
      obtain ⟨hl, hpins, hpb, -⟩ :=
        set_value_and_char p (65535 ^^^ (1 <<< i))
          { s with gtkjoy_pins := updFn2 s.gtkjoy_pins p i (s.gtkjoy_pins p i - 1) } hp
      refine ⟨hpb, ?_, ?_⟩
      · rw [hpins]
        exact hcond
      · rw [hl, hxor, hk]
        simp
    · rw [if_neg (fun h => hk (hcond.symm.trans h))]
      refine ⟨hp, hcond, ?_⟩
      have hd : decide (s.gtkjoy_pins p i - 1 ≠ 0) = true := by
        simpa using hk
      rw [hd]
      simp

/-- C1: two physical controls mapped to the same pin.  Pressing the pin
twice and releasing once leaves the pin bit latched; the second release
clears it.  In general, releasing a single pin leaves its bit in the
latched value exactly when the per-port press counter is still non-zero
after the decrement, so a pin bit is only cleared once its counter
reaches zero. -/
theorem c1_many_to_one_debouncing (p i : Nat) (s t : JoyState)
    (hi : i < JOYPORT_MAX_PINS)
    (hs : s.event_playback = false)
    (hcnt : s.gtkjoy_pins p i = 0)
    (_hbit : (s.latch_values p).testBit i = false)
    (ht : t.event_playback = false) :
    (((gtkjoy_set_value_release p (1 <<< i)
         (gtkjoy_set_value_press p (1 <<< i)
           (gtkjoy_set_value_press p (1 <<< i) s))).latch_values p).testBit i = true ∧
     ((gtkjoy_set_value_release p (1 <<< i)
         (gtkjoy_set_value_release p (1 <<< i)
           (gtkjoy_set_value_press p (1 <<< i)
             (gtkjoy_set_value_press p (1 <<< i) s)))).latch_values p).testBit i = false) ∧
    ((gtkjoy_set_value_release p (1 <<< i) t).gtkjoy_pins p i = t.gtkjoy_pins p i - 1 ∧
     ((gtkjoy_set_value_release p (1 <<< i) t).latch_values p).testBit i =
       (decide (t.gtkjoy_pins p i - 1 ≠ 0) && (t.latch_values p).testBit i)) := by
  obtain ⟨hpb1, hc1, hb1⟩ := gtkjoy_press_char p i hi s hs
  rw [hcnt] at hc1
  obtain ⟨hpb2, hc2, hb2⟩ := gtkjoy_press_char p i hi _ hpb1
  rw [hc1] at hc2
  obtain ⟨hpb3, hc3, hb3⟩ := gtkjoy_release_char p i hi _ hpb2
  rw [hc2] at hc3 hb3
  rw [hb2] at hb3
  simp only [Nat.add_sub_cancel] at hc3
  obtain ⟨hpb4, hc4, hb4⟩ := gtkjoy_release_char p i hi _ hpb3
  rw [hc3, hb3] at hb4
  refine ⟨⟨?_, ?_⟩, (gtkjoy_release_char p i hi t ht).2⟩
  · rw [hb3]
    simp
  · rw [hb4]
    simp

theorem c1_witness :
    ((gtkjoy_set_value_release 1 (1 <<< 4)
        (gtkjoy_set_value_press 1 (1 <<< 4)
          (gtkjoy_set_value_press 1 (1 <<< 4) initJoyState))).latch_values 1).testBit 4 = true ∧
    ((gtkjoy_set_value_release 1 (1 <<< 4)
        (gtkjoy_set_value_release 1 (1 <<< 4)
          (gtkjoy_set_value_press 1 (1 <<< 4)
            (gtkjoy_set_value_press 1 (1 <<< 4) initJoyState)))).latch_values 1).testBit 4 =
      false :=
  (c1_many_to_one_debouncing 1 4 initJoyState initJoyState (by decide) rfl rfl
    (by decide) rfl).1

/-! ## C3 -/

/-- C3 counterexample: joy_button_event compares the raw value with the
stored previous raw value, not the discretized boolean.  With previous
raw value 1 and new raw value 2 both discretize to pressed, yet a
(duplicate) dispatch is performed. -/
theorem c3_button_unchanged_boolean_dispatches :
    (decide ((2 : Int) ≠ 0) = decide (c3_button_cex.prev ≠ 0)) ∧
    (joy_button_event c3_button_cex 2).2 ≠ [] := by
  decide

/-- C3 amended: an axis event whose discretized direction equals the
stored previous direction dispatches nothing; a button event whose raw
value equals the stored previous raw value dispatches nothing (equality
of the pressed booleans alone is not enough — see the counterexample);
a hat event whose four direction bits are unchanged dispatches nothing. -/
theorem c3_unchanged_event_no_dispatch :
    (∀ (axis : joystick_axis_t) (value : Int),
        joy_axis_direction axis value = axis.prev →
        (joy_axis_event axis value).2 = []) ∧
    (∀ (button : joystick_button_t) (value : Int),
        value = button.prev → (joy_button_event button value).2 = []) ∧
    (∀ (hat : joystick_hat_t) (value : Int),
        int_bit_set value 1 = int_bit_set hat.prev 1 →
        int_bit_set value 2 = int_bit_set hat.prev 2 →
        int_bit_set value 4 = int_bit_set hat.prev 4 →
        int_bit_set value 8 = int_bit_set hat.prev 8 →
        (joy_hat_event hat value).2 = []) := by
  refine ⟨?_, ?_, ?_⟩
  · intro axis value h
    simp [joy_axis_event, h]
  · intro button value h
    simp [joy_button_event, h]
  · intro hat value h1 h2 h4 h8
    by_cases hv : value = hat.prev
    · simp [joy_hat_event, hv]
    · simp [joy_hat_event, hv, h1, h2, h4, h8]

theorem c3_witness :
    (joy_axis_event c3_axis 0).2 = [] ∧
    (joy_button_event (wButton (joystick_mapping_t.joystick 16)) 0).2 = [] ∧
    (joy_hat_event c3_hat 16).2 = [] :=
  ⟨c3_unchanged_event_no_dispatch.1 c3_axis 0 (by decide),
   c3_unchanged_event_no_dispatch.2.1 (wButton (joystick_mapping_t.joystick 16)) 0 (by decide),
   c3_unchanged_event_no_dispatch.2.2 c3_hat 16 (by decide) (by decide) (by decide) (by decide)⟩

/-! ## C6 -/

/-- C6 counterexample: after parsing !CLEAR, the axis that was mapped to
potentiometer 1 still has its potentiometer target (pot = 1, not the
unmapped 0): joy_arch_keyword_clear never touches axis->mapping.pot. -/
theorem c6_clear_leaves_pot_mapped :
    (((joy_arch_keyword_clear [c6_device]).getD 0 default).axes.getD 0 default).mapping.pot
        = 1 ∧ (1 : Int) ≠ 0 := by
  decide

/-- C6 amended: parsing !CLEAR sets every axis positive/negative mapping,
every button mapping and every hat direction mapping of every registered
device to none, but leaves every axis potentiometer target unchanged. -/
theorem c6_clear_all_mappings_except_pot (devices : List joystick_device_t) :
    ((joy_arch_keyword_clear devices).all (fun d =>
        d.axes.all (fun a => a.mapping.positive == joystick_mapping_t.none &&
                             a.mapping.negative == joystick_mapping_t.none) &&
        d.buttons.all (fun b => b.mapping == joystick_mapping_t.none) &&
        d.hats.all (fun h => h.mapping.up == joystick_mapping_t.none &&
                             h.mapping.down == joystick_mapping_t.none &&
                             h.mapping.left == joystick_mapping_t.none &&
                             h.mapping.right == joystick_mapping_t.none)) = true) ∧
    ((joy_arch_keyword_clear devices).map (fun d => d.axes.map (fun a => a.mapping.pot)) =
       devices.map (fun d => d.axes.map (fun a => a.mapping.pot))) := by
  constructor
  · simp [joy_arch_keyword_clear, clear_device, clear_axis, clear_button, clear_hat,
          List.all_map, Function.comp]
  · simp [joy_arch_keyword_clear, clear_device, clear_axis, List.map_map, Function.comp]

/-! ## C8 -/

theorem updateAt_length {α : Type} (l : List α) (i : Nat) (f : α → α) :
    (updateAt l i f).length = l.length := by
  induction l generalizing i with
  | nil => rfl
  | cons x xs ih =>
    cases i with
    | zero => rfl
    | succ j => simp [updateAt, ih]

theorem order_inputs_counts (j : joystick_device_t) :
    (order_inputs_on_code j).axes.length = j.axes.length ∧
    (order_inputs_on_code j).buttons.length = j.buttons.length ∧
    (order_inputs_on_code j).hats.length = j.hats.length := by
  unfold order_inputs_on_code
  refine ⟨?_, ?_, ?_⟩ <;> simp only [List.length_mapIdx] <;> split <;>
    simp [List.length_mergeSort]

theorem apply_default_counts (j : joystick_device_t) :
    ((joystick_device_apply_default_mapping j).1).axes.length = j.axes.length ∧
    ((joystick_device_apply_default_mapping j).1).buttons.length = j.buttons.length ∧
    ((joystick_device_apply_default_mapping j).1).hats.length = j.hats.length := by
  unfold joystick_device_apply_default_mapping
  by_cases hh : j.hats.length > 0 <;> by_cases ha : j.axes.length > 1 <;>
    simp [hh, ha, updateAt_length] <;> (repeat' split) <;> simp [updateAt_length]

theorem device_min_inputs_of_counts {a b : joystick_device_t}
    (ha : a.axes.length = b.axes.length) (hb : a.buttons.length = b.buttons.length)
    (hh : a.hats.length = b.hats.length) (h : device_min_inputs b) :
    device_min_inputs a := by
  unfold device_min_inputs at *
  rw [ha, hb, hh]
  exact h

/-- C8: a device without at least one button and (two axes or one hat) is
rejected: registration returns false with the registry unchanged (the
device is closed and freed, not appended).  Consequently, provided the
customize hook preserves the invariant, every device in the registry
satisfies the minimum-input invariant. -/
theorem c8_register_invariant (customize : Option (joystick_device_t → joystick_device_t))
    (devices : List joystick_device_t) (joydev : joystick_device_t)
    (hcust : ∀ f, customize = some f → ∀ d, device_min_inputs d → device_min_inputs (f d))
    (hreg : ∀ d ∈ devices, device_min_inputs d) :
    (¬device_min_inputs joydev →
       joystick_device_register customize devices joydev = (false, devices)) ∧
    (∀ d ∈ (joystick_device_register customize devices joydev).2, device_min_inputs d) := by
  constructor
  · intro hno
    unfold joystick_device_register
    rw [if_pos (show ¬((joydev.axes.length ≥ 2 ∨ joydev.hats.length ≥ 1) ∧ joydev.buttons.length ≥ 1) from hno)]
  · by_cases hok : device_min_inputs joydev
    · unfold joystick_device_register
      rw [if_neg (show ¬¬((joydev.axes.length ≥ 2 ∨ joydev.hats.length ≥ 1) ∧ joydev.buttons.length ≥ 1) from not_not_intro hok)]
      intro d hd
      rcases List.mem_append.mp hd with hin | hlast
      · exact hreg d hin
      · have hd1 : device_min_inputs (joystick_device_trim_name joydev) := hok
        have hd2 : device_min_inputs
            (if ¬(joystick_device_trim_name joydev).disable_sort then
               order_inputs_on_code (joystick_device_trim_name joydev)
             else joystick_device_trim_name joydev) := by
          split
          · obtain ⟨ca, cb, ch⟩ := order_inputs_counts (joystick_device_trim_name joydev)
            exact device_min_inputs_of_counts ca cb ch hd1
          · exact hd1
        have hd3 : device_min_inputs
            ((joystick_device_apply_default_mapping
               (if ¬(joystick_device_trim_name joydev).disable_sort then
                  order_inputs_on_code (joystick_device_trim_name joydev)
                else joystick_device_trim_name joydev)).1) := by
          obtain ⟨ca, cb, ch⟩ := apply_default_counts
            (if ¬(joystick_device_trim_name joydev).disable_sort then
               order_inputs_on_code (joystick_device_trim_name joydev)
             else joystick_device_trim_name joydev)
          exact device_min_inputs_of_counts ca cb ch hd2
        simp only [List.mem_singleton] at hlast
        rw [hlast]
        clear hd hlast
        revert hcust
        cases customize with
        | none => exact fun _ => hd3
        | some f => exact fun hcust => hcust f rfl _ hd3
    · unfold joystick_device_register
      rw [if_pos (show ¬((joydev.axes.length ≥ 2 ∨ joydev.hats.length ≥ 1) ∧
            joydev.buttons.length ≥ 1) from hok)]
      intro d hd
      exact hreg d hd

theorem c8_witness :
    joystick_device_register Option.none [] c8_bad_device = (false, []) ∧
    (∀ d ∈ (joystick_device_register Option.none [] c8_bad_device).2,
        device_min_inputs d) :=
  ⟨(c8_register_invariant Option.none [] c8_bad_device
      (fun f h => nomatch h) (fun d hd => nomatch hd)).1 (by decide),
   (c8_register_invariant Option.none [] c8_bad_device
      (fun f h => nomatch h) (fun d hd => nomatch hd)).2⟩

/-! ## C7 -/

/-- Parsing the line 0 1 999 1 16 against a registry whose device 0 has
fewer than 1000 buttons: the registry is unchanged, the parse fails, and
exactly the invalid-button-index error is logged. -/
theorem c7_line_effect (uiId : String → Int) (devices : List joystick_device_t)
    (hdev : devices ≠ [])
    (hbtn : (devices.getD 0 default).buttons.length < 1000) :
    joy_arch_parse_entry uiId c7_mal_line devices =
      (devices, false, ["invalid button index 999 for joystick 0."]) := by
  rcases devices with _ | ⟨d0, ds⟩
  · exact absurd rfl hdev
  · have hb0 : d0.buttons.length < 1000 := by simpa using hbtn
    unfold joy_arch_parse_entry joy_arch_parse_entry_validate c7_mal_line
    norm_num [joystick_action_decode]
    rw [if_neg (show ¬((ds.length : Int) + 1 ≤ 0) from by omega)]
    unfold parser_set_button
    norm_num
    rw [if_neg (show ¬(999 < d0.buttons.length) from by omega)]
    rfl

/-- The registry component of the load loop ignores the line counter. -/
theorem load_from_registry (uiId : String → Int) (fn : String) :
    ∀ (entries : List VjmEntry) (n : Nat) (devices : List joystick_device_t),
      (joy_arch_mapping_load_from uiId fn entries n devices).1 =
        applyEntries uiId entries devices := by
  intro entries
  induction entries with
  | nil => intro n devices; rfl
  | cons e rest ih =>
    intro n devices
    cases e with
    | comment =>
      simp only [joy_arch_mapping_load_from, applyEntries, List.foldl_cons]
      exact ih (n + 1) devices
    | keyword k =>
      simp only [joy_arch_mapping_load_from, applyEntries, List.foldl_cons]
      exact ih (n + 1) _
    | line l =>
      simp only [joy_arch_mapping_load_from, applyEntries, List.foldl_cons]
      exact ih (n + 1) _

/-- Splitting the load loop over an append. -/
theorem load_from_append (uiId : String → Int) (fn : String) :
    ∀ (xs ys : List VjmEntry) (n : Nat) (devices : List joystick_device_t),
      joy_arch_mapping_load_from uiId fn (xs ++ ys) n devices =
        ((joy_arch_mapping_load_from uiId fn ys (n + xs.length)
            (joy_arch_mapping_load_from uiId fn xs n devices).1).1,
         (joy_arch_mapping_load_from uiId fn xs n devices).2 ++
         (joy_arch_mapping_load_from uiId fn ys (n + xs.length)
            (joy_arch_mapping_load_from uiId fn xs n devices).1).2) := by
  intro xs
  induction xs with
  | nil => intro ys n devices; simp [joy_arch_mapping_load_from]
  | cons x rest ih =>
    intro ys n devices
    have harith : n + (rest.length + 1) = (n + 1) + rest.length := by omega
    cases x with
    | comment =>
      simp only [List.cons_append, joy_arch_mapping_load_from, List.length_cons, harith,
                 List.append_eq]
      rw [ih ys (n + 1) devices]
    | keyword k =>
      simp only [List.cons_append, joy_arch_mapping_load_from, List.length_cons, harith,
                 List.append_eq]
      rw [ih ys (n + 1) _]
    | line l =>
      simp only [List.cons_append, joy_arch_mapping_load_from, List.length_cons, harith,
                 List.append_eq]
      rw [ih ys (n + 1) _]
      simp [List.append_assoc]

/-! Shape preservation: no parsed line changes the number of devices or
the number of axes/buttons/hats of any device. -/

theorem updateAt_map_eq {α β : Type} (l : List α) (i : Nat) (f : α → α) (g : α → β)
    (h : ∀ x, g (f x) = g x) : (updateAt l i f).map g = l.map g := by
  induction l generalizing i with
  | nil => rfl
  | cons x xs ih =>
    cases i with
    | zero => simp [updateAt, h]
    | succ j => simp [updateAt, ih]

theorem parser_set_axis_shape (state : parser_state_t) (devices : List joystick_device_t) :
    ((parser_set_axis state devices).1).map
        (fun d => (d.axes.length, d.buttons.length, d.hats.length)) =
      devices.map (fun d => (d.axes.length, d.buttons.length, d.hats.length)) := by
  unfold parser_set_axis
  dsimp only
  split
  · split
    · exact updateAt_map_eq _ _ _ _ (fun x => by simp [updateAt_length])
    · rfl
  · split
    · split
      · exact updateAt_map_eq _ _ _ _ (fun x => by simp [updateAt_length])
      · exact updateAt_map_eq _ _ _ _ (fun x => by simp [updateAt_length])
    · rfl

theorem parser_set_button_shape (state : parser_state_t) (devices : List joystick_device_t) :
    ((parser_set_button state devices).1).map
        (fun d => (d.axes.length, d.buttons.length, d.hats.length)) =
      devices.map (fun d => (d.axes.length, d.buttons.length, d.hats.length)) := by
  unfold parser_set_button
  dsimp only
  split
  · exact updateAt_map_eq _ _ _ _ (fun x => by simp [updateAt_length])
  · rfl

theorem parser_set_hat_shape (state : parser_state_t) (devices : List joystick_device_t) :
    ((parser_set_hat state devices).1).map
        (fun d => (d.axes.length, d.buttons.length, d.hats.length)) =
      devices.map (fun d => (d.axes.length, d.buttons.length, d.hats.length)) := by
  unfold parser_set_hat
  dsimp only
  split
  · split
    · exact updateAt_map_eq _ _ _ _ (fun x => by simp [updateAt_length])
    · split
      · exact updateAt_map_eq _ _ _ _ (fun x => by simp [updateAt_length])
      · split
        · exact updateAt_map_eq _ _ _ _ (fun x => by simp [updateAt_length])
        · split
          · exact updateAt_map_eq _ _ _ _ (fun x => by simp [updateAt_length])
          · rfl
  · rfl

theorem joy_arch_parse_entry_shape (uiId : String → Int) (l : VjmLine)
    (devices : List joystick_device_t) :
    ((joy_arch_parse_entry uiId l devices).1).map
        (fun d => (d.axes.length, d.buttons.length, d.hats.length)) =
      devices.map (fun d => (d.axes.length, d.buttons.length, d.hats.length)) := by
  unfold joy_arch_parse_entry
  cases joy_arch_parse_entry_validate uiId l devices.length with
  | error msg => rfl
  | ok state =>
    dsimp only
    split
    · exact parser_set_axis_shape _ _
    · split
      · exact parser_set_button_shape _ _
      · split
        · exact parser_set_hat_shape _ _
        · rfl

theorem applyEntry_shape (uiId : String → Int) (devices : List joystick_device_t)
    (e : VjmEntry) :
    ((applyEntry uiId devices e).map
        (fun d => (d.axes.length, d.buttons.length, d.hats.length))) =
      devices.map (fun d => (d.axes.length, d.buttons.length, d.hats.length)) := by
  cases e with
  | comment => rfl
  | keyword k =>
    show (joy_arch_parse_keyword k devices).map _ = _
    unfold joy_arch_parse_keyword
    split
    · simp [joy_arch_keyword_clear, clear_device, List.map_map, Function.comp]
    · rfl
  | line l => exact joy_arch_parse_entry_shape uiId l devices

theorem applyEntries_shape (uiId : String → Int) :
    ∀ (entries : List VjmEntry) (devices : List joystick_device_t),
      ((applyEntries uiId entries devices).map
          (fun d => (d.axes.length, d.buttons.length, d.hats.length))) =
        devices.map (fun d => (d.axes.length, d.buttons.length, d.hats.length)) := by
  intro entries
  induction entries with
  | nil => intro devices; rfl
  | cons e rest ih =>
    intro devices
    unfold applyEntries
    rw [List.foldl_cons]
    exact (ih (applyEntry uiId devices e)).trans (applyEntry_shape uiId devices e)

theorem applyEntries_ne_nil (uiId : String → Int) (entries : List VjmEntry)
    (devices : List joystick_device_t) (hdev : devices ≠ []) :
    applyEntries uiId entries devices ≠ [] := by
  intro hnil
  have h := applyEntries_shape uiId entries devices
  rw [hnil] at h
  have : devices.map (fun d => (d.axes.length, d.buttons.length, d.hats.length)) = [] := h.symm
  exact hdev (List.map_eq_nil_iff.mp this)

theorem applyEntries_buttons0 (uiId : String → Int) (entries : List VjmEntry)
    (devices : List joystick_device_t) (hdev : devices ≠ []) :
    ((applyEntries uiId entries devices).getD 0 default).buttons.length =
      (devices.getD 0 default).buttons.length := by
  have h := applyEntries_shape uiId entries devices
  have h0 := congrArg (fun l => l.get? 0) h
  rcases hsplit : applyEntries uiId entries devices with _ | ⟨r0, rs⟩
  · exact absurd hsplit (applyEntries_ne_nil uiId entries devices hdev)
  · rcases devices with _ | ⟨d0, ds⟩
    · exact absurd rfl hdev
    · rw [hsplit] at h0
      simp only [List.get?] at h0
      simp only [List.map_cons, List.get?_cons_zero, Option.some.injEq] at h0
      have : r0.buttons.length = d0.buttons.length := by
        have := congrArg (fun t : Nat × Nat × Nat => t.2.1) h0
        simpa using this
      simpa [hsplit] using this

/-- C7: the malformed line 0 1 999 1 16 (button index 999 on device 0
which has fewer than 1000 buttons) modifies no mapping of any device and
fails; inside a full joy_arch_mapping_load the file's registry result is
as if that line were absent (subsequent lines are still parsed and
applied), the load still returns success (0), and the error is logged
with the file name and the line number of the offending line. -/
theorem c7_malformed_line_nonfatal (uiId : String → Int) (fn : String)
    (devices : List joystick_device_t) (pre post : List VjmEntry)
    (hdev : devices ≠ [])
    (hbtn : (devices.getD 0 default).buttons.length < 1000) :
    ((joy_arch_parse_entry uiId c7_mal_line devices).1 = devices ∧
     (joy_arch_parse_entry uiId c7_mal_line devices).2.1 = false) ∧
    ((joy_arch_mapping_load uiId fn (pre ++ VjmEntry.line c7_mal_line :: post) devices).1 =
       (joy_arch_mapping_load uiId fn (pre ++ post) devices).1) ∧
    ((joy_arch_mapping_load uiId fn (pre ++ VjmEntry.line c7_mal_line :: post) devices).2.1
       = 0) ∧
    ((fn, pre.length + 1, "invalid button index 999 for joystick 0.") ∈
       (joy_arch_mapping_load uiId fn (pre ++ VjmEntry.line c7_mal_line :: post)
          devices).2.2) := by
  have hmid1 : applyEntries uiId pre devices ≠ [] :=
    applyEntries_ne_nil uiId pre devices hdev
  have hmid2 : ((applyEntries uiId pre devices).getD 0 default).buttons.length < 1000 := by
    rw [applyEntries_buttons0 uiId pre devices hdev]
    exact hbtn
  have hentry := c7_line_effect uiId devices hdev hbtn
  have hentry2 := c7_line_effect uiId (applyEntries uiId pre devices) hmid1 hmid2
  refine ⟨⟨by rw [hentry], by rw [hentry]⟩, ?_, rfl, ?_⟩
  · show (joy_arch_mapping_load_from uiId fn (pre ++ VjmEntry.line c7_mal_line :: post)
        1 devices).1 =
      (joy_arch_mapping_load_from uiId fn (pre ++ post) 1 devices).1
    rw [load_from_registry, load_from_registry]
    unfold applyEntries
    rw [List.foldl_append, List.foldl_append, List.foldl_cons]
    have hskip : applyEntry uiId (List.foldl (applyEntry uiId) devices pre)
        (VjmEntry.line c7_mal_line) = List.foldl (applyEntry uiId) devices pre := by
      show (joy_arch_parse_entry uiId c7_mal_line
        (List.foldl (applyEntry uiId) devices pre)).1 = _
      rw [show (List.foldl (applyEntry uiId) devices pre) = applyEntries uiId pre devices
            from rfl, hentry2]
    rw [hskip]
  · show _ ∈ (joy_arch_mapping_load_from uiId fn (pre ++ VjmEntry.line c7_mal_line :: post)
        1 devices).2
    rw [load_from_append uiId fn pre _ 1 devices]
    refine List.mem_append.mpr (Or.inr ?_)
    rw [load_from_registry uiId fn pre 1 devices]
    simp only [joy_arch_mapping_load_from]
    rw [hentry2]
    have harith : 1 + pre.length = pre.length + 1 := Nat.add_comm 1 pre.length
    simp [harith]

theorem c7_witness :
    ((joy_arch_parse_entry (fun _ => 0) c7_mal_line [c7_device]).1 = [c7_device] ∧
     (joy_arch_parse_entry (fun _ => 0) c7_mal_line [c7_device]).2.1 = false) ∧
    ((joy_arch_mapping_load (fun _ => 0) "joystick.vjm"
        ([VjmEntry.comment] ++ VjmEntry.line c7_mal_line ::
          [VjmEntry.line { ints := [0, 1, 0, 1, 16], word := Option.none }])
        [c7_device]).1 =
      (joy_arch_mapping_load (fun _ => 0) "joystick.vjm"
        ([VjmEntry.comment] ++
          [VjmEntry.line { ints := [0, 1, 0, 1, 16], word := Option.none }])
        [c7_device]).1) ∧
    ((joy_arch_mapping_load (fun _ => 0) "joystick.vjm"
        ([VjmEntry.comment] ++ VjmEntry.line c7_mal_line ::
          [VjmEntry.line { ints := [0, 1, 0, 1, 16], word := Option.none }])
        [c7_device]).2.1 = 0) ∧
    (("joystick.vjm", [VjmEntry.comment].length + 1,
        "invalid button index 999 for joystick 0.") ∈
      (joy_arch_mapping_load (fun _ => 0) "joystick.vjm"
        ([VjmEntry.comment] ++ VjmEntry.line c7_mal_line ::
          [VjmEntry.line { ints := [0, 1, 0, 1, 16], word := Option.none }])
        [c7_device]).2.2) :=
  c7_malformed_line_nonfatal (fun _ => 0) "joystick.vjm" [c7_device]
    [VjmEntry.comment] [VjmEntry.line { ints := [0, 1, 0, 1, 16], word := Option.none }]
    (by simp) (by decide)

/-! ## C4 -/

theorem getD_append_cons {α : Type} [Inhabited α] (P : List α) (dv : α) (Q : List α) :
    (P ++ dv :: Q).getD P.length default = dv := by
  induction P with
  | nil => rfl
  | cons x xs ih => simpa [List.getD] using ih

theorem updateAt_append_cons {α : Type} (P : List α) (dv : α) (Q : List α) (f : α → α) :
    updateAt (P ++ dv :: Q) P.length f = P ++ f dv :: Q := by
  induction P with
  | nil => rfl
  | cons x xs ih => simpa [updateAt] using ih

/-- Validation of a dumped line with action none. -/
theorem vdl_none (uiId : String → Int) (num d t idx : Nat)
    (hd : d < num) (ht : t ≤ 3) :
    joy_arch_parse_entry_validate uiId
      { ints := [(d : Int), (t : Int), (idx : Int), 0], word := Option.none } num =
    .ok { joy_index := (d : Int), input_type := (t : Int), input_index := (idx : Int),
          action := .none, pin := 0, pot := 0, ui_action_id := 0,
          key_row := 0, key_col := 0, key_flags := 0 } := by
  unfold joy_arch_parse_entry_validate
  rw [if_neg (show ¬(min ([(d : Int), (t : Int), (idx : Int), 0].length) 4 < 1) from by
        simp)]
  rw [if_neg (show ¬(([(d : Int), (t : Int), (idx : Int), 0].getD 0 0) < 0 ∨
        ([(d : Int), (t : Int), (idx : Int), 0].getD 0 0) ≥ (num : Int)) from by
        simp [List.getD]
        omega)]
  norm_num [List.getD, joystick_action_decode]
  rw [if_neg (show ¬((t : Int) < 0 ∨ 3 < t) from by omega)]
  rw [if_neg (show ¬((idx : Int) < 0) from by omega)]

/-- Validation of a dumped joystick-pin line. -/
theorem vdl_joystick (uiId : String → Int) (num d t idx pin : Nat)
    (hd : d < num) (ht : t ≤ 3) (hpin : pin ≤ 65535) :
    joy_arch_parse_entry_validate uiId
      { ints := [(d : Int), (t : Int), (idx : Int), 1, (pin : Int)],
        word := Option.none } num =
    .ok { joy_index := (d : Int), input_type := (t : Int), input_index := (idx : Int),
          action := .joystick, pin := pin, pot := 0, ui_action_id := 0,
          key_row := 0, key_col := 0, key_flags := 0 } := by
  unfold joy_arch_parse_entry_validate
  rw [if_neg (show ¬(min ([(d : Int), (t : Int), (idx : Int), 1, (pin : Int)].length) 4 < 1)
        from by simp)]
  rw [if_neg (show ¬(([(d : Int), (t : Int), (idx : Int), 1, (pin : Int)].getD 0 0) < 0 ∨
        ([(d : Int), (t : Int), (idx : Int), 1, (pin : Int)].getD 0 0) ≥ (num : Int)) from by
        simp [List.getD]
        omega)]
  norm_num [List.getD, joystick_action_decode]
  rw [if_neg (show ¬((t : Int) < 0 ∨ 3 < t) from by omega)]
  rw [if_neg (show ¬((idx : Int) < 0) from by omega)]
  rw [if_neg (show ¬((pin : Int) < 0 ∨ 65535 < pin) from by omega)]

/-- Validation of a dumped keyboard line (only row and column are in the
file, so the parsed flags are 0). -/
theorem vdl_keyboard (uiId : String → Int) (num d t idx : Nat) (row col : Int)
    (hd : d < num) (ht : t ≤ 3) :
    joy_arch_parse_entry_validate uiId
      { ints := [(d : Int), (t : Int), (idx : Int), 2, row, col],
        word := Option.none } num =
    .ok { joy_index := (d : Int), input_type := (t : Int), input_index := (idx : Int),
          action := .keyboard, pin := 0, pot := 0, ui_action_id := 0,
          key_row := row, key_col := col, key_flags := 0 } := by
  unfold joy_arch_parse_entry_validate
  rw [if_neg (show ¬(min ([(d : Int), (t : Int), (idx : Int), 2, row, col].length) 4 < 1)
        from by simp)]
  rw [if_neg (show ¬(([(d : Int), (t : Int), (idx : Int), 2, row, col].getD 0 0) < 0 ∨
        ([(d : Int), (t : Int), (idx : Int), 2, row, col].getD 0 0) ≥ (num : Int)) from by
        simp [List.getD]
        omega)]
  norm_num [List.getD, joystick_action_decode]
  rw [if_neg (show ¬((t : Int) < 0 ∨ 3 < t) from by omega)]
  rw [if_neg (show ¬((idx : Int) < 0) from by omega)]

/-- Validation of a dumped map-action line. -/
theorem vdl_map (uiId : String → Int) (num d t idx : Nat)
    (hd : d < num) (ht : t ≤ 3) :
    joy_arch_parse_entry_validate uiId
      { ints := [(d : Int), (t : Int), (idx : Int), 3], word := Option.none } num =
    .ok { joy_index := (d : Int), input_type := (t : Int), input_index := (idx : Int),
          action := .map, pin := 0, pot := 0, ui_action_id := 0,
          key_row := 0, key_col := 0, key_flags := 0 } := by
  unfold joy_arch_parse_entry_validate
  rw [if_neg (show ¬(min ([(d : Int), (t : Int), (idx : Int), 3].length) 4 < 1) from by
        simp)]
  rw [if_neg (show ¬(([(d : Int), (t : Int), (idx : Int), 3].getD 0 0) < 0 ∨
        ([(d : Int), (t : Int), (idx : Int), 3].getD 0 0) ≥ (num : Int)) from by
        simp [List.getD]
        omega)]
  norm_num [List.getD, joystick_action_decode]
  rw [if_neg (show ¬((t : Int) < 0 ∨ 3 < t) from by omega)]
  rw [if_neg (show ¬((idx : Int) < 0) from by omega)]

/-- Validation of a dumped UI-activate line. -/
theorem vdl_ui_activate (uiId : String → Int) (num d t idx : Nat)
    (hd : d < num) (ht : t ≤ 3) :
    joy_arch_parse_entry_validate uiId
      { ints := [(d : Int), (t : Int), (idx : Int), 4], word := Option.none } num =
    .ok { joy_index := (d : Int), input_type := (t : Int), input_index := (idx : Int),
          action := .ui_activate, pin := 0, pot := 0, ui_action_id := 0,
          key_row := 0, key_col := 0, key_flags := 0 } := by
  unfold joy_arch_parse_entry_validate
  rw [if_neg (show ¬(min ([(d : Int), (t : Int), (idx : Int), 4].length) 4 < 1) from by
        simp)]
  rw [if_neg (show ¬(([(d : Int), (t : Int), (idx : Int), 4].getD 0 0) < 0 ∨
        ([(d : Int), (t : Int), (idx : Int), 4].getD 0 0) ≥ (num : Int)) from by
        simp [List.getD]
        omega)]
  norm_num [List.getD, joystick_action_decode]
  rw [if_neg (show ¬((t : Int) < 0 ∨ 3 < t) from by omega)]
  rw [if_neg (show ¬((idx : Int) < 0) from by omega)]

/-- Validation of a dumped UI-function line whose bareword survives the
parser's character scan and resolves back to a positive id. -/
theorem vdl_ui_function (uiId : String → Int) (num d t idx : Nat) (nm : String)
    (c : Char) (cs : List Char)
    (hd : d < num) (ht : t ≤ 3)
    (hchars : nm.toList = c :: cs) (halpha : c.isAlpha = true)
    (hscan : (cs.takeWhile ui_name_char).take 255 = cs)
    (hpos : 0 < uiId nm) :
    joy_arch_parse_entry_validate uiId
      { ints := [(d : Int), (t : Int), (idx : Int), 5], word := some nm } num =
    .ok { joy_index := (d : Int), input_type := (t : Int), input_index := (idx : Int),
          action := .ui_function, pin := 0, pot := 0, ui_action_id := uiId nm,
          key_row := 0, key_col := 0, key_flags := 0 } := by
  have hmk : String.mk (c :: (cs.takeWhile ui_name_char).take 255) = nm := by
    rw [hscan, ← hchars]
    cases nm
    rfl
  unfold joy_arch_parse_entry_validate
  rw [if_neg (show ¬(min ([(d : Int), (t : Int), (idx : Int), 5].length) 4 < 1) from by
        simp)]
  rw [if_neg (show ¬(([(d : Int), (t : Int), (idx : Int), 5].getD 0 0) < 0 ∨
        ([(d : Int), (t : Int), (idx : Int), 5].getD 0 0) ≥ (num : Int)) from by
        simp [List.getD]
        omega)]
  norm_num [List.getD, joystick_action_decode]
  rw [if_neg (show ¬((t : Int) < 0 ∨ 3 < t) from by omega)]
  rw [if_neg (show ¬((idx : Int) < 0) from by omega)]
  rw [show nm.data = c :: cs from hchars]
  dsimp only
  simp only [halpha, hmk]
  rw [if_neg (show ¬(true = false) from by simp)]
  rw [if_neg (show ¬(uiId nm ≤ 0) from by omega)]

/-- Validation of a dumped pot-axis line. -/
theorem vdl_pot (uiId : String → Int) (num d idx : Nat) (pot : Int)
    (hd : d < num) :
    joy_arch_parse_entry_validate uiId
      { ints := [(d : Int), 0, (idx : Int), 6, pot], word := Option.none } num =
    .ok { joy_index := (d : Int), input_type := 0, input_index := (idx : Int),
          action := .pot_axis, pin := 0, pot := pot, ui_action_id := 0,
          key_row := 0, key_col := 0, key_flags := 0 } := by
  unfold joy_arch_parse_entry_validate
  rw [if_neg (show ¬(min ([(d : Int), 0, (idx : Int), 6, pot].length) 4 < 1) from by
        simp)]
  rw [if_neg (show ¬(([(d : Int), 0, (idx : Int), 6, pot].getD 0 0) < 0 ∨
        ([(d : Int), 0, (idx : Int), 6, pot].getD 0 0) ≥ (num : Int)) from by
        simp [List.getD]
        omega)]
  norm_num [List.getD, joystick_action_decode]

/-- parser_set_button with an in-range index on a decomposed registry. -/
theorem parser_set_button_update (st : parser_state_t) (P Q : List joystick_device_t)
    (dv : joystick_device_t) (idx : Nat)
    (hj : st.joy_index = (P.length : Int)) (hii : st.input_index = (idx : Int))
    (hlt : idx < dv.buttons.length) :
    parser_set_button st (P ++ dv :: Q) =
      (P ++ { dv with
                buttons := updateAt dv.buttons idx
                  (fun b => { b with mapping := parser_set_mapping st }) } :: Q,
       true, []) := by
  unfold parser_set_button
  rw [hj, hii]
  simp only [Int.toNat_natCast, getD_append_cons]
  rw [if_pos (show (idx : Int) < (dv.buttons.length : Int) from by exact_mod_cast hlt)]
  rw [updateAt_append_cons]

/-- parser_set_axis on the positive direction (input index 2*idx). -/
theorem parser_set_axis_update_pos (st : parser_state_t) (P Q : List joystick_device_t)
    (dv : joystick_device_t) (idx : Nat)
    (hj : st.joy_index = (P.length : Int)) (hii : st.input_index = ((2 * idx : Nat) : Int))
    (hact : st.action ≠ .pot_axis) (hlt : idx < dv.axes.length) :
    parser_set_axis st (P ++ dv :: Q) =
      (P ++ { dv with
                axes := updateAt dv.axes idx
                  (fun a => { a with mapping := { a.mapping with
                    positive := parser_set_mapping st } }) } :: Q,
       true, []) := by
  unfold parser_set_axis
  rw [if_neg hact, hj, hii]
  have hdiv : ((2 * idx : Nat) : Int) / 2 = (idx : Int) := by
    push_cast
    omega
  have hmod : ((2 * idx : Nat) : Int) % 2 = 0 := by
    push_cast
    omega
  simp only [hdiv, hmod, Int.toNat_natCast, getD_append_cons]
  rw [if_pos (show (idx : Int) < (dv.axes.length : Int) from by exact_mod_cast hlt)]
  rw [if_pos trivial, updateAt_append_cons]

/-- parser_set_axis on the negative direction (input index 2*idx+1). -/
theorem parser_set_axis_update_neg (st : parser_state_t) (P Q : List joystick_device_t)
    (dv : joystick_device_t) (idx : Nat)
    (hj : st.joy_index = (P.length : Int))
    (hii : st.input_index = ((2 * idx + 1 : Nat) : Int))
    (hact : st.action ≠ .pot_axis) (hlt : idx < dv.axes.length) :
    parser_set_axis st (P ++ dv :: Q) =
      (P ++ { dv with
                axes := updateAt dv.axes idx
                  (fun a => { a with mapping := { a.mapping with
                    negative := parser_set_mapping st } }) } :: Q,
       true, []) := by
  unfold parser_set_axis
  rw [if_neg hact, hj, hii]
  have hdiv : ((2 * idx + 1 : Nat) : Int) / 2 = (idx : Int) := by
    push_cast
    omega
  have hmod : ((2 * idx + 1 : Nat) : Int) % 2 = 1 := by
    push_cast
    omega
  simp only [hdiv, hmod, Int.toNat_natCast, getD_append_cons]
  rw [if_pos (show (idx : Int) < (dv.axes.length : Int) from by exact_mod_cast hlt)]
  rw [if_neg (show ¬((1 : Int) = 0) from by omega), updateAt_append_cons]

/-- parser_set_axis with the pot-axis action. -/
theorem parser_set_axis_update_pot (st : parser_state_t) (P Q : List joystick_device_t)
    (dv : joystick_device_t) (idx : Nat)
    (hj : st.joy_index = (P.length : Int)) (hii : st.input_index = (idx : Int))
    (hact : st.action = .pot_axis) (hlt : idx < dv.axes.length) :
    parser_set_axis st (P ++ dv :: Q) =
      (P ++ { dv with
                axes := updateAt dv.axes idx
                  (fun a => { a with mapping :=
                    { a.mapping with pot := st.pot } }) } :: Q,
       true, []) := by
  unfold parser_set_axis
  rw [if_pos hact, hj, hii]
  simp only [Int.toNat_natCast, getD_append_cons]
  rw [if_pos (show (idx : Int) < (dv.axes.length : Int) from by exact_mod_cast hlt)]
  rw [updateAt_append_cons]

/-- parser_set_hat on one of the four directions (input index 4*idx+k,
k = 0 up, 1 down, 2 left, 3 right). -/
theorem parser_set_hat_update (st : parser_state_t) (P Q : List joystick_device_t)
    (dv : joystick_device_t) (idx k : Nat)
    (hj : st.joy_index = (P.length : Int))
    (hii : st.input_index = ((4 * idx + k : Nat) : Int))
    (hk : k < 4) (hlt : idx < dv.hats.length) :
    parser_set_hat st (P ++ dv :: Q) =
      (P ++ { dv with
                hats := updateAt dv.hats idx
                  (fun h => { h with mapping :=
                    (if k = 0 then { h.mapping with up := parser_set_mapping st }
                     else if k = 1 then { h.mapping with down := parser_set_mapping st }
                     else if k = 2 then { h.mapping with left := parser_set_mapping st }
                     else { h.mapping with right := parser_set_mapping st }) }) } :: Q,
       true, []) := by
  unfold parser_set_hat
  rw [hj, hii]
  have hdiv : ((4 * idx + k : Nat) : Int) / 4 = (idx : Int) := by
    push_cast
    omega
  have hmod : ((4 * idx + k : Nat) : Int) % 4 = (k : Int) := by
    push_cast
    omega
  simp only [hdiv, hmod, Int.toNat_natCast, getD_append_cons]
  rw [if_pos (show (idx : Int) < (dv.hats.length : Int) from by exact_mod_cast hlt)]
  rcases (show k = 0 ∨ k = 1 ∨ k = 2 ∨ k = 3 from by omega) with h0 | h1 | h2 | h3
  · subst h0
    rw [if_pos (show ((0 : Nat) : Int) = 0 from by norm_num)]
    norm_num
    rw [updateAt_append_cons]
  · subst h1
    rw [if_neg (show ¬(((1 : Nat) : Int) = 0) from by norm_num),
        if_pos (show ((1 : Nat) : Int) = 1 from by norm_num)]
    norm_num
    rw [updateAt_append_cons]
  · subst h2
    rw [if_neg (show ¬(((2 : Nat) : Int) = 0) from by norm_num),
        if_neg (show ¬(((2 : Nat) : Int) = 1) from by norm_num),
        if_pos (show ((2 : Nat) : Int) = 2 from by norm_num)]
    norm_num
    rw [updateAt_append_cons]
  · subst h3
    rw [if_neg (show ¬(((3 : Nat) : Int) = 0) from by norm_num),
        if_neg (show ¬(((3 : Nat) : Int) = 1) from by norm_num),
        if_neg (show ¬(((3 : Nat) : Int) = 2) from by norm_num),
        if_pos (show ((3 : Nat) : Int) = 3 from by norm_num)]
    norm_num
    rw [updateAt_append_cons]

/-- Every line produced by mapping_dump_map for a well-formed slot mapping
passes validation, and the parser state it yields reproduces the mapping
with keyboard flags zeroed. -/
theorem vdl_dump_slot (uiN : Int → Option String) (uiId : String → Int)
    (num d t idx : Nat) (m : joystick_mapping_t)
    (hd : d < num) (ht : t ≤ 3) (hwf : mapping_wf uiN uiId m = true) :
    ∃ st : parser_state_t,
      joy_arch_parse_entry_validate uiId (mapping_dump_line uiN d t idx m) num = .ok st ∧
      st.joy_index = (d : Int) ∧ st.input_type = (t : Int) ∧
      st.input_index = (idx : Int) ∧ st.action ≠ joystick_action_t.pot_axis ∧
      parser_set_mapping st = zero_key_flags m := by
  cases m with
  | none =>
    exact ⟨_, vdl_none uiId num d t idx hd ht, rfl, rfl, rfl, by simp, rfl⟩
  | joystick pin =>
    have hpin : pin ≤ 65535 := by simpa [mapping_wf] using hwf
    exact ⟨_, vdl_joystick uiId num d t idx pin hd ht hpin, rfl, rfl, rfl, by simp, rfl⟩
  | keyboard row col flags =>
    exact ⟨_, vdl_keyboard uiId num d t idx row col hd ht, rfl, rfl, rfl, by simp, rfl⟩
  | map =>
    exact ⟨_, vdl_map uiId num d t idx hd ht, rfl, rfl, rfl, by simp, rfl⟩
  | ui_activate =>
    exact ⟨_, vdl_ui_activate uiId num d t idx hd ht, rfl, rfl, rfl, by simp, rfl⟩
  | ui_function id =>
    rw [mapping_wf, ui_name_ok] at hwf
    cases huiN : uiN id with
    | none => rw [huiN] at hwf; exact absurd hwf (by simp)
    | some nm =>
      rw [huiN] at hwf
      dsimp only at hwf
      cases hnm : nm.toList with
      | nil => rw [hnm] at hwf; exact absurd hwf (by simp)
      | cons c cs =>
        rw [hnm] at hwf
        dsimp only at hwf
        simp only [Bool.and_eq_true, beq_iff_eq, decide_eq_true_eq] at hwf
        obtain ⟨⟨⟨halpha, hscan⟩, hid⟩, hpos⟩ := hwf
        have hline : mapping_dump_line uiN d t idx (.ui_function id) =
            { ints := [(d : Int), (t : Int), (idx : Int), 5], word := some nm } := by
          simp [mapping_dump_line, joystick_mapping_t.action, huiN]
        refine ⟨{ joy_index := (d : Int), input_type := (t : Int),
                  input_index := (idx : Int), action := .ui_function, pin := 0, pot := 0,
                  ui_action_id := uiId nm, key_row := 0, key_col := 0, key_flags := 0 },
                ?_, rfl, rfl, rfl, by simp, ?_⟩
        · rw [hline]
          exact vdl_ui_function uiId num d t idx nm c cs hd ht hnm halpha hscan
            (by rw [hid]; exact hpos)
        · simp [parser_set_mapping, zero_key_flags, hid]
  | pot_axis =>
    exact absurd hwf (by simp [mapping_wf])

/-- A dumped button line reloads the button's mapping (with keyboard flags
zeroed) into the device at the dumped registry position. -/
theorem applyEntry_dump_button (uiN : Int → Option String) (uiId : String → Int)
    (P Q : List joystick_device_t) (dv : joystick_device_t) (idx : Nat)
    (m : joystick_mapping_t) (hwf : mapping_wf uiN uiId m = true)
    (hlt : idx < dv.buttons.length) :
    applyEntry uiId (P ++ dv :: Q) (mapping_dump_map uiN P.length 1 idx m) =
      P ++ { dv with
               buttons := updateAt dv.buttons idx
                 (fun b => { b with mapping := zero_key_flags m }) } :: Q := by
  obtain ⟨st, hok, hj, ht', hii, hnp, hm⟩ :=
    vdl_dump_slot uiN uiId (P ++ dv :: Q).length P.length 1 idx m (by simp) (by norm_num) hwf
  show (joy_arch_parse_entry uiId (mapping_dump_line uiN P.length 1 idx m)
          (P ++ dv :: Q)).1 = _
  unfold joy_arch_parse_entry
  rw [hok]
  dsimp only
  rw [ht']
  norm_num
  rw [parser_set_button_update st P Q dv idx hj hii hlt]
  rw [hm]

/-- A dumped axis positive-direction line (map index 2*idx) reloads the
positive mapping of axis idx. -/
theorem applyEntry_dump_axis_pos (uiN : Int → Option String) (uiId : String → Int)
    (P Q : List joystick_device_t) (dv : joystick_device_t) (idx : Nat)
    (m : joystick_mapping_t) (hwf : mapping_wf uiN uiId m = true)
    (hlt : idx < dv.axes.length) :
    applyEntry uiId (P ++ dv :: Q) (mapping_dump_map uiN P.length 0 (2 * idx) m) =
      P ++ { dv with
               axes := updateAt dv.axes idx
                 (fun a => { a with mapping := { a.mapping with
                   positive := zero_key_flags m } }) } :: Q := by
  obtain ⟨st, hok, hj, ht', hii, hnp, hm⟩ :=
    vdl_dump_slot uiN uiId (P ++ dv :: Q).length P.length 0 (2 * idx) m
      (by simp) (by norm_num) hwf
  show (joy_arch_parse_entry uiId (mapping_dump_line uiN P.length 0 (2 * idx) m)
          (P ++ dv :: Q)).1 = _
  unfold joy_arch_parse_entry
  rw [hok]
  dsimp only
  rw [ht']
  norm_num
  rw [parser_set_axis_update_pos st P Q dv idx hj hii hnp hlt]
  rw [hm]

/-- A dumped axis negative-direction line (map index 2*idx+1) reloads the
negative mapping of axis idx. -/
theorem applyEntry_dump_axis_neg (uiN : Int → Option String) (uiId : String → Int)
    (P Q : List joystick_device_t) (dv : joystick_device_t) (idx : Nat)
    (m : joystick_mapping_t) (hwf : mapping_wf uiN uiId m = true)
    (hlt : idx < dv.axes.length) :
    applyEntry uiId (P ++ dv :: Q) (mapping_dump_map uiN P.length 0 (2 * idx + 1) m) =
      P ++ { dv with
               axes := updateAt dv.axes idx
                 (fun a => { a with mapping := { a.mapping with
                   negative := zero_key_flags m } }) } :: Q := by
  obtain ⟨st, hok, hj, ht', hii, hnp, hm⟩ :=
    vdl_dump_slot uiN uiId (P ++ dv :: Q).length P.length 0 (2 * idx + 1) m
      (by simp) (by norm_num) hwf
  show (joy_arch_parse_entry uiId (mapping_dump_line uiN P.length 0 (2 * idx + 1) m)
          (P ++ dv :: Q)).1 = _
  unfold joy_arch_parse_entry
  rw [hok]
  dsimp only
  rw [ht']
  norm_num
  rw [parser_set_axis_update_neg st P Q dv idx hj hii hnp hlt]
  rw [hm]

/-- A dumped hat-direction line (map index 4*idx+k, k = 0 up, 1 down,
2 left, 3 right) reloads that direction of hat idx. -/
theorem applyEntry_dump_hat (uiN : Int → Option String) (uiId : String → Int)
    (P Q : List joystick_device_t) (dv : joystick_device_t) (idx j k : Nat)
    (m : joystick_mapping_t) (hjk : j = 4 * idx + k) (hk : k < 4)
    (hwf : mapping_wf uiN uiId m = true) (hlt : idx < dv.hats.length) :
    applyEntry uiId (P ++ dv :: Q) (mapping_dump_map uiN P.length 2 j m) =
      P ++ { dv with
               hats := updateAt dv.hats idx
                 (fun h => { h with mapping :=
                   (if k = 0 then { h.mapping with up := zero_key_flags m }
                    else if k = 1 then { h.mapping with down := zero_key_flags m }
                    else if k = 2 then { h.mapping with left := zero_key_flags m }
                    else { h.mapping with right := zero_key_flags m }) }) } :: Q := by
  subst hjk
  obtain ⟨st, hok, hj, ht', hii, hnp, hm⟩ :=
    vdl_dump_slot uiN uiId (P ++ dv :: Q).length P.length 2 (4 * idx + k) m
      (by simp) (by norm_num) hwf
  show (joy_arch_parse_entry uiId (mapping_dump_line uiN P.length 2 (4 * idx + k) m)
          (P ++ dv :: Q)).1 = _
  unfold joy_arch_parse_entry
  rw [hok]
  dsimp only
  rw [ht']
  norm_num
  rw [parser_set_hat_update st P Q dv idx k hj hii hk hlt]
  rw [hm]

/-- The pot line dumped for a pot-mapped axis reloads the pot target of
axis idx. -/
theorem applyEntry_dump_pot (uiId : String → Int)
    (P Q : List joystick_device_t) (dv : joystick_device_t) (idx : Nat) (pot : Int)
    (hlt : idx < dv.axes.length) :
    applyEntry uiId (P ++ dv :: Q)
        (VjmEntry.line { ints := [(P.length : Int), 0, (idx : Int), 6, pot],
                         word := Option.none }) =
      P ++ { dv with
               axes := updateAt dv.axes idx
                 (fun a => { a with mapping :=
                   { a.mapping with pot := pot } }) } :: Q := by
  show (joy_arch_parse_entry uiId
          { ints := [(P.length : Int), 0, (idx : Int), 6, pot], word := Option.none }
          (P ++ dv :: Q)).1 = _
  unfold joy_arch_parse_entry
  rw [vdl_pot uiId (P ++ dv :: Q).length P.length idx pot (by simp)]
  dsimp only
  norm_num
  rw [parser_set_axis_update_pot _ P Q dv idx rfl rfl rfl hlt]

theorem applyEntries_nil (uiId : String → Int) (devices : List joystick_device_t) :
    applyEntries uiId [] devices = devices := rfl

theorem applyEntries_cons (uiId : String → Int) (e : VjmEntry) (es : List VjmEntry)
    (devices : List joystick_device_t) :
    applyEntries uiId (e :: es) devices =
      applyEntries uiId es (applyEntry uiId devices e) := rfl

theorem applyEntries_append (uiId : String → Int) (xs ys : List VjmEntry)
    (devices : List joystick_device_t) :
    applyEntries uiId (xs ++ ys) devices =
      applyEntries uiId ys (applyEntries uiId xs devices) :=
  List.foldl_append _ _ _ _

theorem updateAt_updateAt {α : Type} (l : List α) (i : Nat) (f g : α → α) :
    updateAt (updateAt l i f) i g = updateAt l i (fun x => g (f x)) := by
  induction l generalizing i with
  | nil => rfl
  | cons x xs ih =>
    cases i with
    | zero => rfl
    | succ j => simp [updateAt, ih]

/-- One dumped hat-up line. -/
theorem applyEntry_dump_hat_up (uiN : Int → Option String) (uiId : String → Int)
    (P Q : List joystick_device_t) (dv : joystick_device_t) (idx : Nat)
    (m : joystick_mapping_t) (hwf : mapping_wf uiN uiId m = true)
    (hlt : idx < dv.hats.length) :
    applyEntry uiId (P ++ dv :: Q) (mapping_dump_map uiN P.length 2 (4 * idx) m) =
      P ++ { dv with
               hats := updateAt dv.hats idx
                 (fun h => { h with mapping :=
                   { h.mapping with up := zero_key_flags m } }) } :: Q := by
  rw [applyEntry_dump_hat uiN uiId P Q dv idx (4 * idx) 0 m rfl (by norm_num) hwf hlt]
  norm_num

/-- One dumped hat-down line. -/
theorem applyEntry_dump_hat_down (uiN : Int → Option String) (uiId : String → Int)
    (P Q : List joystick_device_t) (dv : joystick_device_t) (idx : Nat)
    (m : joystick_mapping_t) (hwf : mapping_wf uiN uiId m = true)
    (hlt : idx < dv.hats.length) :
    applyEntry uiId (P ++ dv :: Q) (mapping_dump_map uiN P.length 2 (4 * idx + 1) m) =
      P ++ { dv with
               hats := updateAt dv.hats idx
                 (fun h => { h with mapping :=
                   { h.mapping with down := zero_key_flags m } }) } :: Q := by
  rw [applyEntry_dump_hat uiN uiId P Q dv idx (4 * idx + 1) 1 m rfl (by norm_num) hwf hlt]
  norm_num

/-- One dumped hat-left line. -/
theorem applyEntry_dump_hat_left (uiN : Int → Option String) (uiId : String → Int)
    (P Q : List joystick_device_t) (dv : joystick_device_t) (idx : Nat)
    (m : joystick_mapping_t) (hwf : mapping_wf uiN uiId m = true)
    (hlt : idx < dv.hats.length) :
    applyEntry uiId (P ++ dv :: Q) (mapping_dump_map uiN P.length 2 (4 * idx + 2) m) =
      P ++ { dv with
               hats := updateAt dv.hats idx
                 (fun h => { h with mapping :=
                   { h.mapping with left := zero_key_flags m } }) } :: Q := by
  rw [applyEntry_dump_hat uiN uiId P Q dv idx (4 * idx + 2) 2 m rfl (by norm_num) hwf hlt]
  norm_num

/-- One dumped hat-right line. -/
theorem applyEntry_dump_hat_right (uiN : Int → Option String) (uiId : String → Int)
    (P Q : List joystick_device_t) (dv : joystick_device_t) (idx : Nat)
    (m : joystick_mapping_t) (hwf : mapping_wf uiN uiId m = true)
    (hlt : idx < dv.hats.length) :
    applyEntry uiId (P ++ dv :: Q) (mapping_dump_map uiN P.length 2 (4 * idx + 3) m) =
      P ++ { dv with
               hats := updateAt dv.hats idx
                 (fun h => { h with mapping :=
                   { h.mapping with right := zero_key_flags m } }) } :: Q := by
  rw [applyEntry_dump_hat uiN uiId P Q dv idx (4 * idx + 3) 3 m rfl (by norm_num) hwf hlt]
  norm_num

/-- A dumped axis negative-direction line on a registry whose device has
its axes list explicitly decomposed at the target axis. -/
theorem applyEntry_dump_axis_neg_at (uiN : Int → Option String) (uiId : String → Int)
    (P Q : List joystick_device_t) (dv : joystick_device_t)
    (done tail : List joystick_axis_t) (X : joystick_axis_t)
    (m : joystick_mapping_t) (hwf : mapping_wf uiN uiId m = true) :
    applyEntry uiId (P ++ { dv with axes := done ++ X :: tail } :: Q)
        (mapping_dump_map uiN P.length 0 (2 * done.length + 1) m) =
      P ++ { dv with
               axes := done ++
                 { X with mapping := { X.mapping with
                   negative := zero_key_flags m } } :: tail } :: Q := by
  rw [applyEntry_dump_axis_neg uiN uiId P Q { dv with axes := done ++ X :: tail }
        done.length m hwf (by simp)]
  rw [show ({ dv with axes := done ++ X :: tail } : joystick_device_t).axes =
        done ++ X :: tail from rfl]
  rw [updateAt_append_cons]

/-- A dumped hat-down line on a registry whose device has its hats list
explicitly decomposed at the target hat. -/
theorem applyEntry_dump_hat_down_at (uiN : Int → Option String) (uiId : String → Int)
    (P Q : List joystick_device_t) (dv : joystick_device_t)
    (done tail : List joystick_hat_t) (X : joystick_hat_t)
    (m : joystick_mapping_t) (hwf : mapping_wf uiN uiId m = true) :
    applyEntry uiId (P ++ { dv with hats := done ++ X :: tail } :: Q)
        (mapping_dump_map uiN P.length 2 (4 * done.length + 1) m) =
      P ++ { dv with
               hats := done ++
                 { X with mapping := { X.mapping with
                   down := zero_key_flags m } } :: tail } :: Q := by
  rw [applyEntry_dump_hat_down uiN uiId P Q { dv with hats := done ++ X :: tail }
        done.length m hwf (by simp)]
  rw [show ({ dv with hats := done ++ X :: tail } : joystick_device_t).hats =
        done ++ X :: tail from rfl]
  rw [updateAt_append_cons]

/-- A dumped hat-left line on a decomposed registry. -/
theorem applyEntry_dump_hat_left_at (uiN : Int → Option String) (uiId : String → Int)
    (P Q : List joystick_device_t) (dv : joystick_device_t)
    (done tail : List joystick_hat_t) (X : joystick_hat_t)
    (m : joystick_mapping_t) (hwf : mapping_wf uiN uiId m = true) :
    applyEntry uiId (P ++ { dv with hats := done ++ X :: tail } :: Q)
        (mapping_dump_map uiN P.length 2 (4 * done.length + 2) m) =
      P ++ { dv with
               hats := done ++
                 { X with mapping := { X.mapping with
                   left := zero_key_flags m } } :: tail } :: Q := by
  rw [applyEntry_dump_hat_left uiN uiId P Q { dv with hats := done ++ X :: tail }
        done.length m hwf (by simp)]
  rw [show ({ dv with hats := done ++ X :: tail } : joystick_device_t).hats =
        done ++ X :: tail from rfl]
  rw [updateAt_append_cons]

/-- A dumped hat-right line on a decomposed registry. -/
theorem applyEntry_dump_hat_right_at (uiN : Int → Option String) (uiId : String → Int)
    (P Q : List joystick_device_t) (dv : joystick_device_t)
    (done tail : List joystick_hat_t) (X : joystick_hat_t)
    (m : joystick_mapping_t) (hwf : mapping_wf uiN uiId m = true) :
    applyEntry uiId (P ++ { dv with hats := done ++ X :: tail } :: Q)
        (mapping_dump_map uiN P.length 2 (4 * done.length + 3) m) =
      P ++ { dv with
               hats := done ++
                 { X with mapping := { X.mapping with
                   right := zero_key_flags m } } :: tail } :: Q := by
  rw [applyEntry_dump_hat_right uiN uiId P Q { dv with hats := done ++ X :: tail }
        done.length m hwf (by simp)]
  rw [show ({ dv with hats := done ++ X :: tail } : joystick_device_t).hats =
        done ++ X :: tail from rfl]
  rw [updateAt_append_cons]

/-- Replaying the dumped button lines of a device over its cleared image
restores every button mapping (keyboard flags zeroed). -/
theorem dump_buttons_fold (uiN : Int → Option String) (uiId : String → Int)
    (btns : List joystick_button_t) :
    ∀ (done : List joystick_button_t) (idx : Nat) (dv : joystick_device_t)
      (P Q : List joystick_device_t),
    idx = done.length →
    dv.buttons = done ++ btns.map clear_button →
    btns.all (fun b => mapping_wf uiN uiId b.mapping) = true →
    applyEntries uiId (joy_arch_mapping_dump_buttons uiN P.length idx btns)
        (P ++ dv :: Q) =
      P ++ { dv with buttons := done ++ btns.map restored_button } :: Q := by
  induction btns with
  | nil =>
    intro done idx dv P Q _ hbtns _
    simp only [List.map_nil, List.append_nil] at hbtns ⊢
    rw [joy_arch_mapping_dump_buttons, applyEntries_nil, ← hbtns]
  | cons b btns ih =>
    intro done idx dv P Q hidx hbtns hwf
    simp only [List.all_cons, Bool.and_eq_true] at hwf
    obtain ⟨hwb, hwrest⟩ := hwf
    simp only [List.map_cons] at hbtns
    rw [joy_arch_mapping_dump_buttons, applyEntries_cons]
    subst hidx
    have hlt : done.length < dv.buttons.length := by
      rw [hbtns]
      simp
    rw [applyEntry_dump_button uiN uiId P Q dv done.length b.mapping hwb hlt]
    rw [hbtns, updateAt_append_cons]
    have hres := ih (done ++ [restored_button b]) (done.length + 1)
        { dv with buttons := done ++ restored_button b :: btns.map clear_button } P Q
        (by simp) (by simp) hwrest
    have hgoal : applyEntries uiId
        (joy_arch_mapping_dump_buttons uiN P.length (done.length + 1) btns)
        (P ++ { dv with
                  buttons := done ++ restored_button b :: btns.map clear_button } :: Q) =
        P ++ { dv with
                 buttons := done ++ restored_button b :: btns.map restored_button } :: Q := by
      rw [hres]
      simp
    exact hgoal

/-- Replaying the dumped axis lines of a device over its cleared image:
a pot-mapped axis keeps its pot target with direction slots cleared, any
other axis gets its direction mappings back (keyboard flags zeroed). -/
theorem dump_axes_fold (uiN : Int → Option String) (uiId : String → Int)
    (axs : List joystick_axis_t) :
    ∀ (done : List joystick_axis_t) (idx : Nat) (dv : joystick_device_t)
      (P Q : List joystick_device_t),
    idx = done.length →
    dv.axes = done ++ axs.map clear_axis →
    axs.all (fun a => mapping_wf uiN uiId a.mapping.positive &&
                      mapping_wf uiN uiId a.mapping.negative) = true →
    applyEntries uiId (joy_arch_mapping_dump_axes uiN P.length idx axs)
        (P ++ dv :: Q) =
      P ++ { dv with axes := done ++ axs.map restored_axis } :: Q := by
  induction axs with
  | nil =>
    intro done idx dv P Q _ haxs _
    simp only [List.map_nil, List.append_nil] at haxs ⊢
    rw [joy_arch_mapping_dump_axes, applyEntries_nil, ← haxs]
  | cons a axs ih =>
    intro done idx dv P Q hidx haxs hwf
    simp only [List.all_cons, Bool.and_eq_true] at hwf
    obtain ⟨⟨hwp, hwn⟩, hwrest⟩ := hwf
    simp only [List.map_cons] at haxs
    rw [joy_arch_mapping_dump_axes]
    subst hidx
    rw [applyEntries_append]
    by_cases hpot : a.mapping.pot > 0
    · rw [if_pos hpot]
      rw [applyEntries_cons, applyEntries_nil]
      have hlt : done.length < dv.axes.length := by
        rw [haxs]
        simp
      rw [applyEntry_dump_pot uiId P Q dv done.length a.mapping.pot hlt]
      rw [haxs, updateAt_append_cons]
      have hres := ih (done ++ [clear_axis a]) (done.length + 1)
          { dv with axes := done ++ clear_axis a :: axs.map clear_axis } P Q
          (by simp) (by simp) hwrest
      have hgoal : applyEntries uiId
          (joy_arch_mapping_dump_axes uiN P.length (done.length + 1) axs)
          (P ++ { dv with
                    axes := done ++ clear_axis a :: axs.map clear_axis } :: Q) =
          P ++ { dv with
                   axes := done ++ restored_axis a :: axs.map restored_axis } :: Q := by
        rw [hres, show restored_axis a = clear_axis a from by
              rw [restored_axis, if_pos hpot]]
        simp
      exact hgoal
    · rw [if_neg hpot]
      rw [applyEntries_cons, applyEntries_cons, applyEntries_nil]
      have hlt : done.length < dv.axes.length := by
        rw [haxs]
        simp
      rw [applyEntry_dump_axis_pos uiN uiId P Q dv done.length a.mapping.positive hwp hlt]
      rw [haxs, updateAt_append_cons]
      rw [applyEntry_dump_axis_neg_at uiN uiId P Q dv done (axs.map clear_axis) _
            a.mapping.negative hwn]
      have hres := ih
          (done ++ [{ a with mapping := { a.mapping with
             positive := zero_key_flags a.mapping.positive,
             negative := zero_key_flags a.mapping.negative } }]) (done.length + 1)
          { dv with
              axes := done ++
                { a with mapping := { a.mapping with
                   positive := zero_key_flags a.mapping.positive,
                   negative := zero_key_flags a.mapping.negative } } ::
                axs.map clear_axis } P Q
          (by simp) (by simp) hwrest
      have hra : restored_axis a =
          { a with mapping := { a.mapping with
             positive := zero_key_flags a.mapping.positive,
             negative := zero_key_flags a.mapping.negative } } := by
        rw [restored_axis, if_neg hpot]
      have hgoal : applyEntries uiId
          (joy_arch_mapping_dump_axes uiN P.length (done.length + 1) axs)
          (P ++ { dv with
                    axes := done ++
                      { a with mapping := { a.mapping with
                         positive := zero_key_flags a.mapping.positive,
                         negative := zero_key_flags a.mapping.negative } } ::
                      axs.map clear_axis } :: Q) =
          P ++ { dv with
                   axes := done ++ restored_axis a :: axs.map restored_axis } :: Q := by
        rw [hres, hra]
        simp
      exact hgoal

/-- Replaying the dumped hat lines of a device over its cleared image
restores all four direction mappings (keyboard flags zeroed). -/
theorem dump_hats_fold (uiN : Int → Option String) (uiId : String → Int)
    (hts : List joystick_hat_t) :
    ∀ (done : List joystick_hat_t) (idx : Nat) (dv : joystick_device_t)
      (P Q : List joystick_device_t),
    idx = done.length →
    dv.hats = done ++ hts.map clear_hat →
    hts.all (fun h => mapping_wf uiN uiId h.mapping.up &&
                      mapping_wf uiN uiId h.mapping.down &&
                      mapping_wf uiN uiId h.mapping.left &&
                      mapping_wf uiN uiId h.mapping.right) = true →
    applyEntries uiId (joy_arch_mapping_dump_hats uiN P.length idx hts)
        (P ++ dv :: Q) =
      P ++ { dv with hats := done ++ hts.map restored_hat } :: Q := by
  induction hts with
  | nil =>
    intro done idx dv P Q _ hhts _
    simp only [List.map_nil, List.append_nil] at hhts ⊢
    rw [joy_arch_mapping_dump_hats, applyEntries_nil, ← hhts]
  | cons hh hts ih =>
    intro done idx dv P Q hidx hhts hwf
    simp only [List.all_cons, Bool.and_eq_true] at hwf
    obtain ⟨⟨⟨⟨hwu, hwd⟩, hwl⟩, hwr⟩, hwrest⟩ := hwf
    simp only [List.map_cons] at hhts
    rw [joy_arch_mapping_dump_hats]
    subst hidx
    rw [applyEntries_append]
    rw [applyEntries_cons, applyEntries_cons, applyEntries_cons, applyEntries_cons,
        applyEntries_nil]
    have hlt : done.length < dv.hats.length := by
      rw [hhts]
      simp
    rw [applyEntry_dump_hat_up uiN uiId P Q dv done.length hh.mapping.up hwu hlt]
    rw [hhts, updateAt_append_cons]
    rw [applyEntry_dump_hat_down_at uiN uiId P Q dv done (hts.map clear_hat) _
          hh.mapping.down hwd]
    rw [applyEntry_dump_hat_left_at uiN uiId P Q dv done (hts.map clear_hat) _
          hh.mapping.left hwl]
    rw [applyEntry_dump_hat_right_at uiN uiId P Q dv done (hts.map clear_hat) _
          hh.mapping.right hwr]
    have hres := ih (done ++ [restored_hat hh]) (done.length + 1)
        { dv with hats := done ++ restored_hat hh :: hts.map clear_hat } P Q
        (by simp) (by simp) hwrest
    have hgoal : applyEntries uiId
        (joy_arch_mapping_dump_hats uiN P.length (done.length + 1) hts)
        (P ++ { dv with
                  hats := done ++ restored_hat hh :: hts.map clear_hat } :: Q) =
        P ++ { dv with
                 hats := done ++ restored_hat hh :: hts.map restored_hat } :: Q := by
      rw [hres]
      simp
    exact hgoal

/-- Replaying one device's dump section over its cleared image restores
the whole device. -/
theorem dump_device_fold (uiN : Int → Option String) (uiId : String → Int)
    (dv : joystick_device_t) (P Q : List joystick_device_t)
    (hwf : device_wf uiN uiId dv = true) :
    applyEntries uiId (joy_arch_mapping_dump_device uiN P.length dv)
        (P ++ clear_device dv :: Q) =
      P ++ restored_device dv :: Q := by
  rw [device_wf, Bool.and_eq_true, Bool.and_eq_true] at hwf
  obtain ⟨⟨hwa, hwb⟩, hwh⟩ := hwf
  rw [joy_arch_mapping_dump_device]
  rw [applyEntries_cons]
  rw [show applyEntry uiId (P ++ clear_device dv :: Q) VjmEntry.comment =
        P ++ clear_device dv :: Q from rfl]
  rw [applyEntries_append, applyEntries_append]
  have h1 : applyEntries uiId (joy_arch_mapping_dump_axes uiN P.length 0 dv.axes)
      (P ++ clear_device dv :: Q) =
      P ++ { dv with
               axes := dv.axes.map restored_axis,
               buttons := dv.buttons.map clear_button,
               hats := dv.hats.map clear_hat } :: Q := by
    rw [dump_axes_fold uiN uiId dv.axes [] 0 (clear_device dv) P Q rfl
          (by simp [clear_device]) hwa]
    rfl
  rw [h1]
  have h2 : applyEntries uiId (joy_arch_mapping_dump_buttons uiN P.length 0 dv.buttons)
      (P ++ { dv with
                axes := dv.axes.map restored_axis,
                buttons := dv.buttons.map clear_button,
                hats := dv.hats.map clear_hat } :: Q) =
      P ++ { dv with
               axes := dv.axes.map restored_axis,
               buttons := dv.buttons.map restored_button,
               hats := dv.hats.map clear_hat } :: Q := by
    rw [dump_buttons_fold uiN uiId dv.buttons [] 0
          { dv with
              axes := dv.axes.map restored_axis,
              buttons := dv.buttons.map clear_button,
              hats := dv.hats.map clear_hat } P Q rfl (by simp) hwb]
    rfl
  rw [h2]
  have h3 : applyEntries uiId (joy_arch_mapping_dump_hats uiN P.length 0 dv.hats)
      (P ++ { dv with
                axes := dv.axes.map restored_axis,
                buttons := dv.buttons.map restored_button,
                hats := dv.hats.map clear_hat } :: Q) =
      P ++ restored_device dv :: Q := by
    rw [dump_hats_fold uiN uiId dv.hats [] 0
          { dv with
              axes := dv.axes.map restored_axis,
              buttons := dv.buttons.map restored_button,
              hats := dv.hats.map clear_hat } P Q rfl (by simp) hwh]
    rfl
  rw [h3]

/-- Replaying every device section of the dump over the cleared registry
restores every device. -/
theorem dump_devices_fold (uiN : Int → Option String) (uiId : String → Int)
    (rest : List joystick_device_t) :
    ∀ (P : List joystick_device_t) (idx : Nat),
    idx = P.length →
    rest.all (device_wf uiN uiId) = true →
    applyEntries uiId (joy_arch_mapping_dump_devices uiN idx rest)
        (P ++ rest.map clear_device) =
      P ++ rest.map restored_device := by
  induction rest with
  | nil =>
    intro P idx _ _
    simp [joy_arch_mapping_dump_devices, applyEntries_nil]
  | cons d rest ih =>
    intro P idx hidx hwf
    simp only [List.all_cons, Bool.and_eq_true] at hwf
    obtain ⟨hwd, hwrest⟩ := hwf
    simp only [List.map_cons]
    rw [joy_arch_mapping_dump_devices]
    subst hidx
    rw [applyEntries_append]
    rw [dump_device_fold uiN uiId d P (rest.map clear_device) hwd]
    rw [show P ++ restored_device d :: rest.map clear_device =
          (P ++ [restored_device d]) ++ rest.map clear_device from by simp]
    rw [ih (P ++ [restored_device d]) (P.length + 1) (by simp) hwrest]
    simp

/-- C4 (counterexample): the round trip is not payload-exact.  A button
mapped to keyboard row 1, column 2 with flags 5 comes back from
load(dump(...)) with flags 0, because mapping_dump_map serialises only the
row and the column of a keyboard mapping. -/
theorem c4_keyboard_flags_not_restored :
    ((joy_arch_mapping_load (fun _ => (0 : Int)) "joymap.vjm"
        (joy_arch_mapping_dump (fun _ => (Option.none : Option String)) c4_registry)
        c4_registry).1.map (fun d => d.buttons.map (fun b => b.mapping)) =
      [[joystick_mapping_t.keyboard 1 2 0]]) ∧
    c4_registry.map (fun d => d.buttons.map (fun b => b.mapping)) =
      [[joystick_mapping_t.keyboard 1 2 5]] :=
  ⟨rfl, rfl⟩

/-- C4: loading the file dumped by joy_arch_mapping_dump back over the
same registry restores every device up to the two serializer gaps: each
axis with a positive pot target keeps its pot but its direction slots stay
cleared, and every reloaded keyboard mapping has flags 0; every other
axis/button/hat slot gets back the same action and payload.  Requires
every slot to be dumpable (pins fit in 16 bits, UI action ids resolve both
ways, no pot-axis action in a direction/button slot). -/
theorem c4_round_trip_restores_mappings
    (uiN : Int → Option String) (uiId : String → Int) (fn : String)
    (devices : List joystick_device_t)
    (hwf : devices.all (device_wf uiN uiId) = true) :
    (joy_arch_mapping_load uiId fn (joy_arch_mapping_dump uiN devices) devices).1 =
      devices.map restored_device := by
  show (joy_arch_mapping_load_from uiId fn (joy_arch_mapping_dump uiN devices)
          1 devices).1 = _
  rw [load_from_registry]
  show applyEntries uiId
      (VjmEntry.comment :: VjmEntry.keyword "CLEAR" ::
        joy_arch_mapping_dump_devices uiN 0 devices) devices = _
  rw [applyEntries_cons, applyEntries_cons]
  rw [show applyEntry uiId devices VjmEntry.comment = devices from rfl]
  rw [show applyEntry uiId devices (VjmEntry.keyword "CLEAR") =
        devices.map clear_device from by
      show joy_arch_parse_keyword "CLEAR" devices = _
      unfold joy_arch_parse_keyword
      rw [if_pos rfl]
      rfl]
  show applyEntries uiId (joy_arch_mapping_dump_devices uiN 0 devices)
      ([] ++ devices.map clear_device) = [] ++ devices.map restored_device
  exact dump_devices_fold uiN uiId devices [] 0 rfl hwf

/-- Witness for C4: a registry exercising a pot axis, keyboard and map
axis slots, pin and UI-activate buttons and a fully pin-mapped hat. -/
theorem c4_witness :
    c4w_registry.all (device_wf (fun _ => (Option.none : Option String))
        (fun _ => (0 : Int))) = true ∧
    (joy_arch_mapping_load (fun _ => (0 : Int)) "joymap.vjm"
        (joy_arch_mapping_dump (fun _ => (Option.none : Option String)) c4w_registry)
        c4w_registry).1 = c4w_registry.map restored_device :=
  ⟨by decide,
   c4_round_trip_restores_mappings (fun _ => (Option.none : Option String))
     (fun _ => (0 : Int)) "joymap.vjm" c4w_registry (by decide)⟩

end Vice
